import Mathlib

/-!
Verification of `pandas_ext/amazon_spectrum.py` (Spectrum DDL generation and
idempotent synchronization).

The Python module is shallowly embedded over `String`/`List Char`:

* `inspect.cleandoc` is modelled faithfully (tab expansion, margin
  computation over the lines after the first, dedent, stripping of leading
  and trailing blank lines) as `cleandoc`.
* `str.lower` / `str.upper` are modelled on the ASCII range (`pyLower`,
  `pyUpper`); the identifiers fed to these functions are ASCII SQL/S3 names.
* External collaborators (the schema registry, `pandas` dataframe schema
  extraction, `today()` from `pandas_ext.common.utils`, and the warehouse
  connection) are modelled as explicit parameters, following the spec's
  external-interface section: the dataframe length `df_len` together with the
  two column fragments `df_schema`/`registry_schema`, the current date
  `today`, and the probe result row count `probe_rows`.
* The `KeyError` of the file-format serde lookup is modelled with `Option`.
* `to_spectrum` returns, besides the generated script, the ordered list of
  SQL texts passed to `engine.execute` and the list of texts passed to
  `pd.read_sql_query`, so that execution-trace claims can be stated.
-/

/-- Python whitespace as stripped by `str.lstrip()` (ASCII part). -/
def isPySpace (c : Char) : Bool :=
  c = ' ' || c = '\t' || c = '\n' || c = '\r' || c = '\x0b' || c = '\x0c'

/-- `line.lstrip()` on raw character lists. -/
def lstripL (l : List Char) : List Char := l.dropWhile isPySpace

/-- `len(line) - len(line.lstrip())`: the leading-whitespace count. -/
def indentOf (l : List Char) : Nat := (l.takeWhile isPySpace).length

/-- `str.expandtabs()` with the default tab stop of 8; the column counter
resets after a newline or carriage return, exactly as in CPython. -/
def expandTabsAux : Nat → List Char → List Char
  | _, [] => []
  | col, c :: cs =>
    if c = '\t' then
      List.replicate (8 - col % 8) ' ' ++ expandTabsAux (col + (8 - col % 8)) cs
    else if c = '\n' then '\n' :: expandTabsAux 0 cs
    else if c = '\r' then '\r' :: expandTabsAux 0 cs
    else c :: expandTabsAux (col + 1) cs

def expandTabsL (l : List Char) : List Char := expandTabsAux 0 l

/-- `doc.split('\n')` on character lists. -/
def splitLines : List Char → List (List Char)
  | [] => [[]]
  | c :: cs =>
    if c = '\n' then [] :: splitLines cs
    else
      match splitLines cs with
      | [] => [[c]]
      | l :: ls => (c :: l) :: ls

/-- `'\n'.join(lines)` on character lists. -/
def joinNL : List (List Char) → List Char
  | [] => []
  | [l] => l
  | l :: l2 :: ls => l ++ '\n' :: joinNL (l2 :: ls)

/-- One step of `inspect.cleandoc`'s margin computation: blank lines are
skipped, other lines contribute their indentation to the running minimum
(`none` plays the role of `sys.maxsize`). -/
def updateMargin (m : Option Nat) (l : List Char) : Option Nat :=
  if (lstripL l).isEmpty then m
  else
    match m with
    | none => some (indentOf l)
    | some k => some (min k (indentOf l))

/-- The margin of `inspect.cleandoc`, computed over `lines[1:]`. -/
def marginOf (lines : List (List Char)) : Option Nat :=
  lines.foldl updateMargin none

/-- Remove trailing blank (empty) lines, as `cleandoc` does. -/
def dropTrailingEmpty (m : List (List Char)) : List (List Char) :=
  ((m.reverse).dropWhile (fun l => l.isEmpty)).reverse

/-- `inspect.cleandoc` on character lists: expand tabs, split into lines,
fully left-strip the first line, dedent the remaining lines by the common
margin, drop trailing then leading blank lines, and re-join. -/
def cleandocL (doc : List Char) : List Char :=
  let lines := splitLines (expandTabsL doc)
  let dedented :=
    match lines with
    | [] => []
    | l0 :: rest =>
      lstripL l0 ::
        (match marginOf rest with
         | none => rest
         | some m => rest.map (fun l => l.drop m))
  joinNL (List.dropWhile (fun l => l.isEmpty) (dropTrailingEmpty dedented))

/-- `inspect.cleandoc` on strings. -/
def cleandoc (s : String) : String := String.mk (cleandocL s.data)

/-- ASCII case mapping of Python's `str.lower` (identity beyond A-Z). -/
def lowerChar (c : Char) : Char :=
  match c with
  | 'A' => 'a' | 'B' => 'b' | 'C' => 'c' | 'D' => 'd' | 'E' => 'e'
  | 'F' => 'f' | 'G' => 'g' | 'H' => 'h' | 'I' => 'i' | 'J' => 'j'
  | 'K' => 'k' | 'L' => 'l' | 'M' => 'm' | 'N' => 'n' | 'O' => 'o'
  | 'P' => 'p' | 'Q' => 'q' | 'R' => 'r' | 'S' => 's' | 'T' => 't'
  | 'U' => 'u' | 'V' => 'v' | 'W' => 'w' | 'X' => 'x' | 'Y' => 'y'
  | 'Z' => 'z'
  | c => c

/-- ASCII case mapping of Python's `str.upper` (identity beyond a-z). -/
def upperChar (c : Char) : Char :=
  match c with
  | 'a' => 'A' | 'b' => 'B' | 'c' => 'C' | 'd' => 'D' | 'e' => 'E'
  | 'f' => 'F' | 'g' => 'G' | 'h' => 'H' | 'i' => 'I' | 'j' => 'J'
  | 'k' => 'K' | 'l' => 'L' | 'm' => 'M' | 'n' => 'N' | 'o' => 'O'
  | 'p' => 'P' | 'q' => 'Q' | 'r' => 'R' | 's' => 'S' | 't' => 'T'
  | 'u' => 'U' | 'v' => 'V' | 'w' => 'W' | 'x' => 'X' | 'y' => 'Y'
  | 'z' => 'Z'
  | c => c

/-- `str.lower()` (ASCII). -/
def pyLower (s : String) : String := String.mk (s.data.map lowerChar)

/-- `str.upper()` (ASCII). -/
def pyUpper (s : String) : String := String.mk (s.data.map upperChar)

/-- Does `needle` occur at the head of `hay`? -/
def startsWithL : List Char → List Char → Bool
  | [], _ => true
  | _ :: _, [] => false
  | c :: cs, d :: ds => c = d && startsWithL cs ds

/-- Does `needle` occur anywhere inside `hay`?  (Python's `needle in hay`.) -/
def containsSubL (needle : List Char) : List Char → Bool
  | [] => startsWithL needle []
  | c :: t => startsWithL needle (c :: t) || containsSubL needle t

/-- Substring test on strings. -/
def containsSub (needle hay : String) : Bool := containsSubL needle.data hay.data

/-- `_get_file_format_serde`: lookup in the one-entry dict keyed by
`file_format`; the Python `KeyError` on a missing key is `none`. -/
def _get_file_format_serde (file_format : String) : Option String :=
  if file_format = "parquet" then
    some "org.apache.hadoop.hive.ql.io.parquet.serde.ParquetHiveSerDe"
  else none

/-- `_build_s3_stream_path` (module lines 19-35): the legacy direct-write
path builder, embedded verbatim including its line-wrapped f-string. -/
def _build_s3_stream_path (bucket stream file_format partition partition_value : String)
    (has_partition : Bool) : String :=
  let partitioned_by :=
    if has_partition then partition ++ "=" ++ partition_value else ""
  pyLower (cleandoc ("\n        s3://" ++ bucket ++ "/" ++ stream ++ "/ext="
    ++ file_format ++ "/" ++ partitioned_by ++ stream
    ++ "\n        /" ++ stream ++ ".snappy"))

/-- `_create_schema_alias_statement` (module lines 38-48). -/
def _create_schema_alias_statement (schema_alias schema table : String) : String :=
  cleandoc ("\n        CREATE VIEW \"" ++ schema_alias ++ "\".\"" ++ table
    ++ "\" AS\n        SELECT * FROM \"" ++ schema ++ "\".\"" ++ table
    ++ "\"\n        WITH NO SCHEMA BINDING;\n    ")

/-- The partition-directory location local of `_create_partition_statement`
(module lines 63-66). -/
def partition_s3_path (bucket stream file_format partition partition_value : String) :
    String :=
  pyLower ("s3://" ++ bucket ++ "/" ++ stream ++ "/ext=" ++ file_format ++ "/"
    ++ partition ++ "=" ++ partition_value ++ "/")

/-- `_create_partition_statement` (module lines 51-72).  `today` stands for
the external `today()` collaborator consulted when `partition_value` is
empty.  Python defaults: `file_format='parquet'`, `partition='dt'`,
`partition_value=''`. -/
def _create_partition_statement (schema bucket stream file_format partition
    partition_value today : String) : String :=
  let partition_value := if partition_value = "" then today else partition_value
  let s3_path := partition_s3_path bucket stream file_format partition partition_value
  cleandoc ("\n        ALTER TABLE \"" ++ schema ++ "\".\"" ++ stream ++ "_"
    ++ file_format ++ "\"\n        ADD PARTITION (" ++ partition ++ "=\x27"
    ++ partition_value ++ "\x27)\n        LOCATION \x27" ++ s3_path
    ++ "\x27\n        ;")

/-- `_external_table_exists_statement` (module lines 75-85): the probe is
keyed on the concatenation `schema ++ table`, with no format suffix. -/
def _external_table_exists_statement (schema table : String) : String :=
  cleandoc ("\n        SELECT distinct(schemaname || tablename) as schema_table"
    ++ "\n        FROM SVV_EXTERNAL_COLUMNS"
    ++ "\n        WHERE schemaname || tablename = \x27" ++ schema ++ table
    ++ "\x27\n        ;")

/-- The `PARTITIONED BY` clause local of `_create_external_table_statement`
(module lines 103-107). -/
def partitioned_by_clause (partition partition_type : String) (has_partition : Bool) :
    String :=
  if has_partition then
    "PARTITIONED BY (" ++ partition ++ " " ++ partition_type ++ ")"
  else ""

/-- The root location local of `_create_external_table_statement`
(module line 102). -/
def create_table_s3_path (bucket stream file_format : String) : String :=
  pyLower ("s3://" ++ bucket ++ "/" ++ stream ++ "/ext=" ++ file_format ++ "/")

/-- `_create_external_table_statement` (module lines 88-118).  The serde
lookup happens first; its `KeyError` (modelled by `none`) aborts the builder
before any statement text is assembled.  The `partition_value` parameter is
accepted and unused, as in the source. -/
def _create_external_table_statement (schema table columns bucket stream
    file_format partition partition_type partition_value : String)
    (has_partition : Bool) : Option String :=
  match _get_file_format_serde file_format with
  | none => none
  | some serde =>
    let upper_file_format := pyUpper file_format
    let s3_path := create_table_s3_path bucket stream file_format
    let partitioned_by := partitioned_by_clause partition partition_type has_partition
    some (cleandoc ("\n        CREATE EXTERNAL TABLE \"" ++ schema ++ "\".\""
      ++ table ++ "_" ++ file_format ++ "\" (\n        " ++ columns
      ++ "\n        )\n        " ++ partitioned_by
      ++ "\n        ROW FORMAT SERDE \x27" ++ serde
      ++ "\x27\n        STORED AS " ++ upper_file_format
      ++ "\n        LOCATION \x27" ++ s3_path ++ "\x27\n        ;"))

/-- Observable outcome of a `to_spectrum` call: the returned script, the SQL
texts passed to `engine.execute` (in order), and the SQL texts passed to
`pd.read_sql_query` (the existence probe). -/
structure SpectrumResult where
  script : String
  executed : List String
  queried : List String
deriving DecidableEq, Repr

/-- `to_spectrum` (module lines 121-208).  External collaborators are passed
as data, following the spec's external-interface section: `df_len` is
`len(df)`, `df_schema` is `schema_from_df(df)`, `registry_schema` is
`schema_from_registry(stream)`, `today` is `today()`, and `probe_rows` is
`len(pd.read_sql_query(existence_probe, conn))`.  A `conn` that is the empty
string is falsy, so no statement is executed.  The serde `KeyError` for an
unknown `file_format` propagates as `none`. -/
def to_spectrum (table external_schema bucket : String) (df_len : Nat)
    (df_schema registry_schema schema_alias stream file_format partition
      partition_type partition_value conn : String)
    (has_partition : Bool) (today : String) (probe_rows : Nat) :
    Option SpectrumResult :=
  let stream := if stream = "" then table else stream
  let columns := if df_len ≠ 0 then df_schema else registry_schema
  match _create_external_table_statement external_schema table columns bucket
      stream file_format partition partition_type "" has_partition with
  | none => none
  | some external_table_statement =>
    let alias_statement :=
      if schema_alias = "" then ""
      else _create_schema_alias_statement schema_alias external_schema table
    let partition_statement :=
      if has_partition then
        _create_partition_statement external_schema bucket stream "parquet"
          partition (if partition_value = "" then today else partition_value) today
      else ""
    let create_statement :=
      external_table_statement ++ alias_statement ++ partition_statement
    some
      { script := create_statement
        executed :=
          if conn ≠ "" then
            (if probe_rows = 0 then [create_statement] else []) ++ [partition_statement]
          else []
        queried :=
          if conn ≠ "" then
            [_external_table_exists_statement external_schema table]
          else [] }

/-- The eight-space indentation margin shared by all statement templates. -/
def margin8 : List Char := [' ', ' ', ' ', ' ', ' ', ' ', ' ', ' ']

/-- Character lists free of newline and tab; such data cannot perturb the
margin computation of `cleandoc`. -/
def noNLTL (l : List Char) : Prop := ∀ c ∈ l, c ≠ '\n' ∧ c ≠ '\t'

/-- Strings free of newline and tab. -/
def noNLT (s : String) : Prop := noNLTL s.data

theorem str_ext (a b : String) (h : a.data = b.data) : a = b := by
  cases a; cases b; exact congrArg String.mk h

theorem noNLTL_append {a b : List Char} (ha : noNLTL a) (hb : noNLTL b) :
    noNLTL (a ++ b) := by
  intro c hc
  rcases List.mem_append.mp hc with h | h
  · exact ha c h
  · exact hb c h

theorem expandTabsAux_eq (l : List Char) (h : ∀ c ∈ l, c ≠ '\t') :
    ∀ col, expandTabsAux col l = l := by
  induction l with
  | nil => intro col; rfl
  | cons c cs ih =>
    intro col
    have hc : c ≠ '\t' := h c (List.mem_cons_self c cs)
    have hcs : ∀ x ∈ cs, x ≠ '\t' := fun x hx => h x (List.mem_cons_of_mem c hx)
    by_cases hn : c = '\n'
    · subst hn; simp [expandTabsAux, ih hcs]
    · by_cases hr : c = '\r'
      · subst hr; simp [expandTabsAux, ih hcs]
      · simp [expandTabsAux, hc, hn, hr, ih hcs]

theorem splitLines_ne_nil (l : List Char) : splitLines l ≠ [] := by
  induction l with
  | nil => simp [splitLines]
  | cons c cs ih =>
    by_cases h : c = '\n'
    · simp [splitLines, h]
    · simp only [splitLines, h, if_false]
      cases hs : splitLines cs <;> simp

theorem splitLines_eq_single (l : List Char) (h : '\n' ∉ l) : splitLines l = [l] := by
  induction l with
  | nil => rfl
  | cons c cs ih =>
    have hc : c ≠ '\n' := fun hc => h (hc ▸ List.mem_cons_self c cs)
    have hcs : '\n' ∉ cs := fun hx => h (List.mem_cons_of_mem c hx)
    simp [splitLines, hc, ih hcs]

theorem splitLines_append (l r : List Char) (h : '\n' ∉ l) :
    splitLines (l ++ '\n' :: r) = l :: splitLines r := by
  induction l with
  | nil => simp [splitLines]
  | cons c cs ih =>
    have hc : c ≠ '\n' := fun hc => h (hc ▸ List.mem_cons_self c cs)
    have hcs : '\n' ∉ cs := fun hx => h (List.mem_cons_of_mem c hx)
    simp [splitLines, hc, ih hcs]

theorem joinNL_cons_cons (a b : List Char) (L : List (List Char)) :
    joinNL (a :: b :: L) = a ++ '\n' :: joinNL (b :: L) := rfl

theorem splitLines_joinNL (L : List (List Char)) (hne : L ≠ [])
    (h : ∀ l ∈ L, '\n' ∉ l) : splitLines (joinNL L) = L := by
  induction L with
  | nil => exact absurd rfl hne
  | cons a L ih =>
    cases L with
    | nil => exact splitLines_eq_single a (h a (List.mem_cons_self a []))
    | cons b M =>
      rw [joinNL_cons_cons,
        splitLines_append a _ (h a (List.mem_cons_self a (b :: M))),
        ih (by simp) (fun l hl => h l (List.mem_cons_of_mem a hl))]

theorem mem_joinNL {c : Char} {L : List (List Char)} (h : c ∈ joinNL L) :
    c = '\n' ∨ ∃ l ∈ L, c ∈ l := by
  induction L with
  | nil => simp [joinNL] at h
  | cons a L ih =>
    cases L with
    | nil =>
      right; exact ⟨a, List.mem_cons_self a [], h⟩
    | cons b M =>
      rw [joinNL_cons_cons] at h
      rcases List.mem_append.mp h with h | h
      · right; exact ⟨a, List.mem_cons_self a _, h⟩
      · rcases List.mem_cons.mp h with h | h
        · left; exact h
        · rcases ih h with h | ⟨l, hl, hcl⟩
          · left; exact h
          · right; exact ⟨l, List.mem_cons_of_mem a hl, hcl⟩

theorem lstripL_margin8 (l : List Char) : lstripL (margin8 ++ l) = lstripL l := rfl

theorem indentOf_margin8 (l : List Char) : indentOf (margin8 ++ l) = 8 + indentOf l := by
  simp [indentOf, margin8, List.takeWhile_cons, isPySpace]
  omega

theorem lstripL_of_indent_zero (l : List Char) (h : indentOf l = 0) : lstripL l = l := by
  cases l with
  | nil => rfl
  | cons c cs =>
    by_cases hc : isPySpace c
    · simp [indentOf, List.takeWhile_cons, hc] at h
    · simp [lstripL, List.dropWhile_cons, hc]

theorem foldl_updateMargin_some8 (rest : List (List Char))
    (h : ∀ e ∈ rest, ¬(lstripL e).isEmpty → 8 ≤ indentOf e) :
    List.foldl updateMargin (some 8) rest = some 8 := by
  induction rest with
  | nil => rfl
  | cons e es ih =>
    have he : updateMargin (some 8) e = some 8 := by
      by_cases hb : (lstripL e).isEmpty
      · simp [updateMargin, hb]
      · have := h e (List.mem_cons_self e es) hb
        simp [updateMargin, hb, Nat.min_eq_left this]
    rw [List.foldl_cons, he]
    exact ih (fun x hx => h x (List.mem_cons_of_mem e hx))

/-- The margin of a template body: every line carries the eight-space
margin (or is an all-blank trailer), and the first line starts with a
non-blank character, so the computed margin is exactly 8. -/
theorem marginOf_template (l₀ : List Char) (rest T : List (List Char))
    (h0 : l₀ ≠ []) (h0i : indentOf l₀ = 0)
    (hT : ∀ t ∈ T, (lstripL t).isEmpty) :
    marginOf (((l₀ :: rest).map (fun l => margin8 ++ l)) ++ T) = some 8 := by
  have h0b : ¬(lstripL (margin8 ++ l₀)).isEmpty := by
    rw [lstripL_margin8, lstripL_of_indent_zero l₀ h0i]
    simpa using h0
  have hstep : updateMargin none (margin8 ++ l₀) = some 8 := by
    simp [updateMargin, h0b, indentOf_margin8, h0i]
  rw [marginOf, List.map_cons, List.cons_append, List.foldl_cons, hstep]
  apply foldl_updateMargin_some8
  intro e he hb
  rcases List.mem_append.mp he with he | he
  · rcases List.mem_map.mp he with ⟨l, _, rfl⟩
    rw [indentOf_margin8]; omega
  · exact absurd (hT e he) hb

theorem drop8_margin8 (l : List Char) : (margin8 ++ l).drop 8 = l :=
  List.drop_left margin8 l

theorem dropWhile_isEmpty_all (E : List (List Char)) (h : ∀ e ∈ E, e = []) :
    List.dropWhile (fun l : List Char => l.isEmpty) E = [] := by
  induction E with
  | nil => rfl
  | cons e es ih =>
    have he := h e (List.mem_cons_self e es)
    subst he
    simpa using ih (fun x hx => h x (List.mem_cons_of_mem _ hx))

theorem dropTrailingEmpty_spec (M E : List (List Char)) (lend : List Char)
    (hE : ∀ e ∈ E, e = []) (hlast : lend ≠ []) :
    dropTrailingEmpty ((M ++ [lend]) ++ E) = M ++ [lend] := by
  unfold dropTrailingEmpty
  rw [List.reverse_append, List.reverse_append]
  simp only [List.reverse_cons, List.reverse_nil, List.nil_append, List.cons_append]
  rw [List.dropWhile_append]
  have hrev : ∀ e ∈ E.reverse, e = [] := fun e he => hE e (List.mem_reverse.mp he)
  rw [dropWhile_isEmpty_all E.reverse hrev]
  simp [List.dropWhile_cons, hlast]

/-- Master characterization of `cleandocL` on the module's f-string
templates: a leading newline, then lines each carrying the eight-space
margin, then optionally some all-blank short trailer lines.  The result is
the margin-stripped body joined by newlines, provided no interpolated text
carries a newline or tab and the first and last body lines are non-blank. -/
theorem cleandocL_template (l₀ lend : List Char) (mid T : List (List Char))
    (h0 : l₀ ≠ []) (h0i : indentOf l₀ = 0) (hend : lend ≠ [])
    (hchars : ∀ l ∈ l₀ :: mid ++ [lend], noNLTL l)
    (hT : ∀ t ∈ T, noNLTL t ∧ (lstripL t).isEmpty ∧ t.drop 8 = []) :
    cleandocL ('\n' :: joinNL (((l₀ :: mid ++ [lend]).map (fun l => margin8 ++ l)) ++ T))
      = joinNL (l₀ :: mid ++ [lend]) := by
  set X : List (List Char) := l₀ :: mid ++ [lend] with hX
  set M : List (List Char) := X.map (fun l => margin8 ++ l) ++ T with hM
  have hmem_margin8 : ∀ c ∈ margin8, c ≠ '\n' ∧ c ≠ '\t' := by decide
  have hMchars : ∀ l ∈ M, noNLTL l := by
    intro l hl
    rcases List.mem_append.mp hl with hl | hl
    · rcases List.mem_map.mp hl with ⟨x, hx, rfl⟩
      exact noNLTL_append hmem_margin8 (hchars x hx)
    · exact (hT l hl).1
  have hMnoNL : ∀ l ∈ M, '\n' ∉ l :=
    fun l hl hc => ((hMchars l hl) '\n' hc).1 rfl
  have hMne : M ≠ [] := by simp [hM, hX]
  -- tab expansion is the identity on the whole document
  have hnotab : ∀ c ∈ '\n' :: joinNL M, c ≠ '\t' := by
    intro c hc
    rcases List.mem_cons.mp hc with rfl | hc
    · decide
    · rcases mem_joinNL hc with rfl | ⟨l, hl, hcl⟩
      · decide
      · exact ((hMchars l hl) c hcl).2
  have hexp : expandTabsL ('\n' :: joinNL M) = '\n' :: joinNL M :=
    expandTabsAux_eq _ hnotab 0
  -- splitting restores the line list, with an empty first line
  have hsplit : splitLines ('\n' :: joinNL M) = [] :: M := by
    have h1 : splitLines ('\n' :: joinNL M) = [] :: splitLines (joinNL M) := by
      simp [splitLines]
    rw [h1, splitLines_joinNL M hMne hMnoNL]
  -- the computed margin is 8
  have hmargin : marginOf M = some 8 :=
    marginOf_template l₀ (mid ++ [lend]) T h0 h0i (fun t ht => (hT t ht).2.1)
  -- dedenting strips exactly the margin and empties the trailer lines
  have hdedent : M.map (fun l => l.drop 8) = X ++ T.map (fun l => l.drop 8) := by
    rw [hM, List.map_append, List.map_map]
    congr 1
    simp only [Function.comp_def, drop8_margin8]
    exact List.map_id X
  have hTdrop : ∀ e ∈ T.map (fun l => l.drop 8), e = [] := by
    intro e he
    rcases List.mem_map.mp he with ⟨t, ht, rfl⟩
    exact (hT t ht).2.2
  -- assemble
  unfold cleandocL
  rw [hexp, hsplit]
  simp only
  rw [hmargin]
  simp only
  rw [hdedent]
  have hshape : (lstripL [] : List Char) :: (X ++ T.map (fun l => l.drop 8))
      = (([] :: l₀ :: mid) ++ [lend]) ++ T.map (fun l => l.drop 8) := by
    simp [hX, lstripL]
  rw [hshape, dropTrailingEmpty_spec _ _ _ hTdrop hend]
  have : List.dropWhile (fun l : List Char => l.isEmpty) (([] :: l₀ :: mid) ++ [lend])
      = X := by
    simp only [List.cons_append, List.dropWhile_cons]
    simp [hX, h0]
  rw [this]

theorem lowerChar_spec (c : Char) :
    lowerChar c = 'a' ∨ lowerChar c = 'b' ∨ lowerChar c = 'c' ∨ lowerChar c = 'd' ∨
    lowerChar c = 'e' ∨ lowerChar c = 'f' ∨ lowerChar c = 'g' ∨ lowerChar c = 'h' ∨
    lowerChar c = 'i' ∨ lowerChar c = 'j' ∨ lowerChar c = 'k' ∨ lowerChar c = 'l' ∨
    lowerChar c = 'm' ∨ lowerChar c = 'n' ∨ lowerChar c = 'o' ∨ lowerChar c = 'p' ∨
    lowerChar c = 'q' ∨ lowerChar c = 'r' ∨ lowerChar c = 's' ∨ lowerChar c = 't' ∨
    lowerChar c = 'u' ∨ lowerChar c = 'v' ∨ lowerChar c = 'w' ∨ lowerChar c = 'x' ∨
    lowerChar c = 'y' ∨ lowerChar c = 'z' ∨ lowerChar c = c := by
  unfold lowerChar
  split <;> simp

theorem lowerChar_idem (c : Char) : lowerChar (lowerChar c) = lowerChar c := by
  rcases lowerChar_spec c with h|h|h|h|h|h|h|h|h|h|h|h|h|h|h|h|h|h|h|h|h|h|h|h|h|h|h <;>
    rw [h] <;> first | decide | rw [h]

theorem upperChar_spec (c : Char) :
    upperChar c = 'A' ∨ upperChar c = 'B' ∨ upperChar c = 'C' ∨ upperChar c = 'D' ∨
    upperChar c = 'E' ∨ upperChar c = 'F' ∨ upperChar c = 'G' ∨ upperChar c = 'H' ∨
    upperChar c = 'I' ∨ upperChar c = 'J' ∨ upperChar c = 'K' ∨ upperChar c = 'L' ∨
    upperChar c = 'M' ∨ upperChar c = 'N' ∨ upperChar c = 'O' ∨ upperChar c = 'P' ∨
    upperChar c = 'Q' ∨ upperChar c = 'R' ∨ upperChar c = 'S' ∨ upperChar c = 'T' ∨
    upperChar c = 'U' ∨ upperChar c = 'V' ∨ upperChar c = 'W' ∨ upperChar c = 'X' ∨
    upperChar c = 'Y' ∨ upperChar c = 'Z' ∨ upperChar c = c := by
  unfold upperChar
  split <;> simp

theorem noNLTL_map_lowerChar {l : List Char} (h : noNLTL l) : noNLTL (l.map lowerChar) := by
  intro c hc
  rcases List.mem_map.mp hc with ⟨x, hx, rfl⟩
  rcases lowerChar_spec x with hx2|hx2|hx2|hx2|hx2|hx2|hx2|hx2|hx2|hx2|hx2|hx2|hx2|hx2|hx2|hx2|hx2|hx2|hx2|hx2|hx2|hx2|hx2|hx2|hx2|hx2|hx2 <;>
    rw [hx2] <;> first | decide | exact h x hx

theorem noNLTL_map_upperChar {l : List Char} (h : noNLTL l) : noNLTL (l.map upperChar) := by
  intro c hc
  rcases List.mem_map.mp hc with ⟨x, hx, rfl⟩
  rcases upperChar_spec x with hx2|hx2|hx2|hx2|hx2|hx2|hx2|hx2|hx2|hx2|hx2|hx2|hx2|hx2|hx2|hx2|hx2|hx2|hx2|hx2|hx2|hx2|hx2|hx2|hx2|hx2|hx2 <;>
    rw [hx2] <;> first | decide | exact h x hx

theorem noNLT_pyLower {s : String} (h : noNLT s) : noNLT (pyLower s) :=
  noNLTL_map_lowerChar h

theorem noNLT_pyUpper {s : String} (h : noNLT s) : noNLT (pyUpper s) :=
  noNLTL_map_upperChar h

theorem noNLT_append {a b : String} (ha : noNLT a) (hb : noNLT b) : noNLT (a ++ b) := by
  unfold noNLT
  rw [String.data_append]
  exact noNLTL_append ha hb

theorem pyLower_append (a b : String) : pyLower (a ++ b) = pyLower a ++ pyLower b := by
  apply str_ext
  simp [pyLower, String.data_append]

theorem pyLower_idem (s : String) : pyLower (pyLower s) = pyLower s := by
  apply str_ext
  simp only [pyLower, List.map_map]
  congr 1
  funext c
  exact lowerChar_idem c

instance (l : List Char) : Decidable (noNLTL l) :=
  inferInstanceAs (Decidable (∀ c ∈ l, c ≠ '\n' ∧ c ≠ '\t'))

instance (s : String) : Decidable (noNLT s) :=
  inferInstanceAs (Decidable (noNLTL s.data))

set_option maxHeartbeats 1000000 in
/-- Symbolic form of the existence probe: the statement is the fixed probe
template around the concatenation `schema ++ table` of the unsuffixed
logical names; no format suffix occurs anywhere in it. -/
theorem exists_statement_chars (schema table : String)
    (hs : noNLT schema) (ht : noNLT table) :
    _external_table_exists_statement schema table =
      "SELECT distinct(schemaname || tablename) as schema_table\nFROM SVV_EXTERNAL_COLUMNS\nWHERE schemaname || tablename = \x27"
        ++ schema ++ table ++ "\x27\n;" := by
  have hchars : ∀ l ∈ "SELECT distinct(schemaname || tablename) as schema_table".data
      :: ["FROM SVV_EXTERNAL_COLUMNS".data,
          "WHERE schemaname || tablename = \x27".data ++ schema.data ++ table.data
            ++ "\x27".data]
      ++ [";".data], noNLTL l := by
    intro l hl
    rcases List.mem_cons.mp hl with rfl | hl
    · decide
    rcases List.mem_cons.mp hl with rfl | hl
    · decide
    rcases List.mem_cons.mp hl with rfl | hl
    · refine noNLTL_append (noNLTL_append (noNLTL_append ?_ hs) ht) ?_
      · decide
      · decide
    rcases List.mem_singleton.mp hl with rfl
    decide
  have step2 := cleandocL_template
    "SELECT distinct(schemaname || tablename) as schema_table".data
    ";".data
    ["FROM SVV_EXTERNAL_COLUMNS".data,
     "WHERE schemaname || tablename = \x27".data ++ schema.data ++ table.data
       ++ "\x27".data]
    []
    (by decide) (by decide) (by decide) hchars
    (fun t ht2 => absurd ht2 (List.not_mem_nil t))
  have hraw : ("\n        SELECT distinct(schemaname || tablename) as schema_table"
      ++ "\n        FROM SVV_EXTERNAL_COLUMNS"
      ++ "\n        WHERE schemaname || tablename = \x27" ++ schema ++ table
      ++ "\x27\n        ;").data
      = '\n' :: joinNL ((("SELECT distinct(schemaname || tablename) as schema_table".data
          :: ["FROM SVV_EXTERNAL_COLUMNS".data,
              "WHERE schemaname || tablename = \x27".data ++ schema.data ++ table.data
                ++ "\x27".data]
          ++ [";".data]).map (fun l => margin8 ++ l)) ++ []) := by
    simp only [String.data_append, List.append_assoc, List.map_cons, List.map_nil,
      List.cons_append, List.nil_append, joinNL, margin8]
  have step3 : joinNL ("SELECT distinct(schemaname || tablename) as schema_table".data
      :: ["FROM SVV_EXTERNAL_COLUMNS".data,
          "WHERE schemaname || tablename = \x27".data ++ schema.data ++ table.data
            ++ "\x27".data]
      ++ [";".data])
      = ("SELECT distinct(schemaname || tablename) as schema_table\nFROM SVV_EXTERNAL_COLUMNS\nWHERE schemaname || tablename = \x27"
        ++ schema ++ table ++ "\x27\n;").data := by
    simp only [String.data_append, List.append_assoc, List.cons_append, List.nil_append, joinNL]
  have hdef : _external_table_exists_statement schema table
      = String.mk (cleandocL ("\n        SELECT distinct(schemaname || tablename) as schema_table"
        ++ "\n        FROM SVV_EXTERNAL_COLUMNS"
        ++ "\n        WHERE schemaname || tablename = \x27" ++ schema ++ table
        ++ "\x27\n        ;").data) := rfl
  rw [hdef, hraw, step2]
  exact str_ext _ _ step3

set_option maxHeartbeats 1000000 in
/-- Symbolic form of the alias view: a `CREATE VIEW` over the *unsuffixed*
logical table name in both the alias schema and the backing schema. -/
theorem alias_statement_chars (schema_alias schema table : String)
    (ha : noNLT schema_alias) (hs : noNLT schema) (ht : noNLT table) :
    _create_schema_alias_statement schema_alias schema table =
      "CREATE VIEW \"" ++ schema_alias ++ "\".\"" ++ table ++ "\" AS\nSELECT * FROM \""
        ++ schema ++ "\".\"" ++ table ++ "\"\nWITH NO SCHEMA BINDING;" := by
  have hchars : ∀ l ∈ ("CREATE VIEW \"".data ++ schema_alias.data ++ "\".\"".data
        ++ table.data ++ "\" AS".data)
      :: ["SELECT * FROM \"".data ++ schema.data ++ "\".\"".data ++ table.data
            ++ "\"".data]
      ++ ["WITH NO SCHEMA BINDING;".data], noNLTL l := by
    intro l hl
    rcases List.mem_cons.mp hl with rfl | hl
    · refine noNLTL_append (noNLTL_append (noNLTL_append (noNLTL_append ?_ ha) ?_) ht) ?_
      · decide
      · decide
      · decide
    rcases List.mem_cons.mp hl with rfl | hl
    · refine noNLTL_append (noNLTL_append (noNLTL_append (noNLTL_append ?_ hs) ?_) ht) ?_
      · decide
      · decide
      · decide
    rcases List.mem_singleton.mp hl with rfl
    decide
  have step2 := cleandocL_template
    ("CREATE VIEW \"".data ++ schema_alias.data ++ "\".\"".data ++ table.data
      ++ "\" AS".data)
    "WITH NO SCHEMA BINDING;".data
    ["SELECT * FROM \"".data ++ schema.data ++ "\".\"".data ++ table.data ++ "\"".data]
    [[' ', ' ', ' ', ' ']]
    (by simp) rfl (by decide) hchars
    (by
      intro t ht2
      rcases List.mem_singleton.mp ht2 with rfl
      exact ⟨by decide, by decide, by decide⟩)
  have hraw : ("\n        CREATE VIEW \"" ++ schema_alias ++ "\".\"" ++ table
      ++ "\" AS\n        SELECT * FROM \"" ++ schema ++ "\".\"" ++ table
      ++ "\"\n        WITH NO SCHEMA BINDING;\n    ").data
      = '\n' :: joinNL (((("CREATE VIEW \"".data ++ schema_alias.data ++ "\".\"".data
            ++ table.data ++ "\" AS".data)
          :: ["SELECT * FROM \"".data ++ schema.data ++ "\".\"".data ++ table.data
                ++ "\"".data]
          ++ ["WITH NO SCHEMA BINDING;".data]).map (fun l => margin8 ++ l))
          ++ [[' ', ' ', ' ', ' ']]) := by
    simp only [String.data_append, List.append_assoc, List.map_cons, List.map_nil,
      List.cons_append, List.nil_append, joinNL, margin8]
  have step3 : joinNL (("CREATE VIEW \"".data ++ schema_alias.data ++ "\".\"".data
        ++ table.data ++ "\" AS".data)
      :: ["SELECT * FROM \"".data ++ schema.data ++ "\".\"".data ++ table.data
            ++ "\"".data]
      ++ ["WITH NO SCHEMA BINDING;".data])
      = ("CREATE VIEW \"" ++ schema_alias ++ "\".\"" ++ table ++ "\" AS\nSELECT * FROM \""
        ++ schema ++ "\".\"" ++ table ++ "\"\nWITH NO SCHEMA BINDING;").data := by
    simp only [String.data_append, List.append_assoc, List.cons_append, List.nil_append, joinNL]
  have hdef : _create_schema_alias_statement schema_alias schema table
      = String.mk (cleandocL ("\n        CREATE VIEW \"" ++ schema_alias ++ "\".\"" ++ table
        ++ "\" AS\n        SELECT * FROM \"" ++ schema ++ "\".\"" ++ table
        ++ "\"\n        WITH NO SCHEMA BINDING;\n    ").data) := rfl
  rw [hdef, hraw, step2]
  exact str_ext _ _ step3

theorem noNLT_partitioned_by (partition partition_type : String) (has_partition : Bool)
    (hp : noNLT partition) (hpt : noNLT partition_type) :
    noNLT (partitioned_by_clause partition partition_type has_partition) := by
  unfold partitioned_by_clause
  split
  · refine noNLT_append (noNLT_append (noNLT_append (noNLT_append ?_ hp) ?_) hpt) ?_ <;>
      decide
  · decide

theorem noNLT_partition_s3_path (bucket stream file_format partition pv : String)
    (hb : noNLT bucket) (hstr : noNLT stream) (hff : noNLT file_format)
    (hp : noNLT partition) (hpv : noNLT pv) :
    noNLT (partition_s3_path bucket stream file_format partition pv) := by
  unfold partition_s3_path
  refine noNLT_pyLower (noNLT_append (noNLT_append (noNLT_append (noNLT_append
    (noNLT_append (noNLT_append (noNLT_append (noNLT_append (noNLT_append
      (noNLT_append ?_ hb) ?_) hstr) ?_) hff) ?_) hp) ?_) hpv) ?_) <;> decide

theorem noNLT_create_table_s3_path (bucket stream file_format : String)
    (hb : noNLT bucket) (hstr : noNLT stream) (hff : noNLT file_format) :
    noNLT (create_table_s3_path bucket stream file_format) := by
  unfold create_table_s3_path
  refine noNLT_pyLower (noNLT_append (noNLT_append (noNLT_append (noNLT_append
    (noNLT_append (noNLT_append ?_ hb) ?_) hstr) ?_) hff) ?_) <;> decide

set_option maxHeartbeats 1000000 in
/-- Symbolic form of the add-partition statement: it targets the
format-suffixed physical name keyed on `stream` (not `table`), and embeds
the partition-directory location. -/
theorem partition_statement_chars (schema bucket stream file_format partition
      partition_value today : String)
    (hs : noNLT schema) (hb : noNLT bucket) (hstr : noNLT stream)
    (hff : noNLT file_format) (hp : noNLT partition)
    (hpv : noNLT partition_value) (hto : noNLT today) :
    _create_partition_statement schema bucket stream file_format partition
        partition_value today =
      "ALTER TABLE \"" ++ schema ++ "\".\"" ++ stream ++ "_" ++ file_format
        ++ "\"\nADD PARTITION (" ++ partition ++ "=\x27"
        ++ (if partition_value = "" then today else partition_value)
        ++ "\x27)\nLOCATION \x27"
        ++ partition_s3_path bucket stream file_format partition
             (if partition_value = "" then today else partition_value)
        ++ "\x27\n;" := by
  have hpv2 : noNLT (if partition_value = "" then today else partition_value) := by
    split
    · exact hto
    · exact hpv
  have hpath : noNLT (partition_s3_path bucket stream file_format partition
      (if partition_value = "" then today else partition_value)) :=
    noNLT_partition_s3_path bucket stream file_format partition _ hb hstr hff hp hpv2
  have hchars : ∀ l ∈ ("ALTER TABLE \"".data ++ schema.data ++ "\".\"".data
        ++ stream.data ++ "_".data ++ file_format.data ++ "\"".data)
      :: ["ADD PARTITION (".data ++ partition.data ++ "=\x27".data
            ++ (if partition_value = "" then today else partition_value).data
            ++ "\x27)".data,
          "LOCATION \x27".data
            ++ (partition_s3_path bucket stream file_format partition
                 (if partition_value = "" then today else partition_value)).data
            ++ "\x27".data]
      ++ [";".data], noNLTL l := by
    intro l hl
    rcases List.mem_cons.mp hl with rfl | hl
    · refine noNLTL_append (noNLTL_append (noNLTL_append (noNLTL_append
        (noNLTL_append (noNLTL_append ?_ hs) ?_) hstr) ?_) hff) ?_ <;> decide
    rcases List.mem_cons.mp hl with rfl | hl
    · refine noNLTL_append (noNLTL_append (noNLTL_append (noNLTL_append ?_ hp) ?_) hpv2) ?_ <;>
        decide
    rcases List.mem_cons.mp hl with rfl | hl
    · refine noNLTL_append (noNLTL_append ?_ hpath) ?_ <;> decide
    rcases List.mem_singleton.mp hl with rfl
    decide
  have step2 := cleandocL_template
    ("ALTER TABLE \"".data ++ schema.data ++ "\".\"".data ++ stream.data
      ++ "_".data ++ file_format.data ++ "\"".data)
    ";".data
    ["ADD PARTITION (".data ++ partition.data ++ "=\x27".data
       ++ (if partition_value = "" then today else partition_value).data
       ++ "\x27)".data,
     "LOCATION \x27".data
       ++ (partition_s3_path bucket stream file_format partition
            (if partition_value = "" then today else partition_value)).data
       ++ "\x27".data]
    []
    (by simp) rfl (by decide) hchars
    (fun t ht2 => absurd ht2 (List.not_mem_nil t))
  have hraw : ("\n        ALTER TABLE \"" ++ schema ++ "\".\"" ++ stream ++ "_"
      ++ file_format ++ "\"\n        ADD PARTITION (" ++ partition ++ "=\x27"
      ++ (if partition_value = "" then today else partition_value)
      ++ "\x27)\n        LOCATION \x27"
      ++ partition_s3_path bucket stream file_format partition
           (if partition_value = "" then today else partition_value)
      ++ "\x27\n        ;").data
      = '\n' :: joinNL (((("ALTER TABLE \"".data ++ schema.data ++ "\".\"".data
            ++ stream.data ++ "_".data ++ file_format.data ++ "\"".data)
          :: ["ADD PARTITION (".data ++ partition.data ++ "=\x27".data
                ++ (if partition_value = "" then today else partition_value).data
                ++ "\x27)".data,
              "LOCATION \x27".data
                ++ (partition_s3_path bucket stream file_format partition
                     (if partition_value = "" then today else partition_value)).data
                ++ "\x27".data]
          ++ [";".data]).map (fun l => margin8 ++ l)) ++ []) := by
    simp only [String.data_append, List.append_assoc, List.map_cons, List.map_nil,
      List.cons_append, List.nil_append, joinNL, margin8]
  have step3 : joinNL (("ALTER TABLE \"".data ++ schema.data ++ "\".\"".data
        ++ stream.data ++ "_".data ++ file_format.data ++ "\"".data)
      :: ["ADD PARTITION (".data ++ partition.data ++ "=\x27".data
            ++ (if partition_value = "" then today else partition_value).data
            ++ "\x27)".data,
          "LOCATION \x27".data
            ++ (partition_s3_path bucket stream file_format partition
                 (if partition_value = "" then today else partition_value)).data
            ++ "\x27".data]
      ++ [";".data])
      = ("ALTER TABLE \"" ++ schema ++ "\".\"" ++ stream ++ "_" ++ file_format
        ++ "\"\nADD PARTITION (" ++ partition ++ "=\x27"
        ++ (if partition_value = "" then today else partition_value)
        ++ "\x27)\nLOCATION \x27"
        ++ partition_s3_path bucket stream file_format partition
             (if partition_value = "" then today else partition_value)
        ++ "\x27\n;").data := by
    simp only [String.data_append, List.append_assoc, List.cons_append, List.nil_append, joinNL]
  have hdef : _create_partition_statement schema bucket stream file_format partition
        partition_value today
      = String.mk (cleandocL ("\n        ALTER TABLE \"" ++ schema ++ "\".\"" ++ stream
        ++ "_" ++ file_format ++ "\"\n        ADD PARTITION (" ++ partition ++ "=\x27"
        ++ (if partition_value = "" then today else partition_value)
        ++ "\x27)\n        LOCATION \x27"
        ++ partition_s3_path bucket stream file_format partition
             (if partition_value = "" then today else partition_value)
        ++ "\x27\n        ;").data) := rfl
  rw [hdef, hraw, step2]
  exact str_ext _ _ step3

theorem serde_lookup_parquet (file_format serde : String)
    (hser : _get_file_format_serde file_format = some serde) :
    file_format = "parquet"
      ∧ serde = "org.apache.hadoop.hive.ql.io.parquet.serde.ParquetHiveSerDe" := by
  by_cases h : file_format = "parquet"
  · refine ⟨h, ?_⟩
    rw [_get_file_format_serde, if_pos h] at hser
    exact (Option.some.injEq _ _ ▸ hser).symm
  · rw [_get_file_format_serde, if_neg h] at hser
    exact absurd hser (Option.noConfusion)

set_option maxHeartbeats 1000000 in
set_option maxRecDepth 8192 in
/-- Symbolic form of the create-external-table statement: it targets the
`_<format>`-suffixed physical name keyed on `table`, embeds the serde from
the format lookup, the optional `PARTITIONED BY` clause and the root
storage location. -/
theorem create_statement_chars (schema table columns bucket stream file_format
      partition partition_type partition_value serde : String)
    (has_partition : Bool)
    (hser : _get_file_format_serde file_format = some serde)
    (hs : noNLT schema) (ht : noNLT table) (hc : noNLT columns)
    (hb : noNLT bucket) (hstr : noNLT stream)
    (hp : noNLT partition) (hpt : noNLT partition_type) :
    _create_external_table_statement schema table columns bucket stream
        file_format partition partition_type partition_value has_partition =
      some ("CREATE EXTERNAL TABLE \"" ++ schema ++ "\".\"" ++ table ++ "_"
        ++ file_format ++ "\" (\n" ++ columns ++ "\n)\n"
        ++ partitioned_by_clause partition partition_type has_partition
        ++ "\nROW FORMAT SERDE \x27" ++ serde ++ "\x27\nSTORED AS "
        ++ pyUpper file_format ++ "\nLOCATION \x27"
        ++ create_table_s3_path bucket stream file_format ++ "\x27\n;") := by
  obtain ⟨hfp, hsd⟩ := serde_lookup_parquet file_format serde hser
  subst hfp
  subst hsd
  have hpb : noNLT (partitioned_by_clause partition partition_type has_partition) :=
    noNLT_partitioned_by partition partition_type has_partition hp hpt
  have hpath : noNLT (create_table_s3_path bucket stream "parquet") :=
    noNLT_create_table_s3_path bucket stream "parquet" hb hstr (by decide)
  have hchars : ∀ l ∈ ("CREATE EXTERNAL TABLE \"".data ++ schema.data ++ "\".\"".data
        ++ table.data ++ "_".data ++ "parquet".data ++ "\" (".data)
      :: [columns.data,
          ")".data,
          (partitioned_by_clause partition partition_type has_partition).data,
          "ROW FORMAT SERDE \x27".data
            ++ "org.apache.hadoop.hive.ql.io.parquet.serde.ParquetHiveSerDe".data
            ++ "\x27".data,
          "STORED AS ".data ++ (pyUpper "parquet").data,
          "LOCATION \x27".data
            ++ (create_table_s3_path bucket stream "parquet").data ++ "\x27".data]
      ++ [";".data], noNLTL l := by
    intro l hl
    rcases List.mem_cons.mp hl with rfl | hl
    · refine noNLTL_append (noNLTL_append (noNLTL_append (noNLTL_append
        (noNLTL_append (noNLTL_append ?_ hs) ?_) ht) ?_) ?_) ?_ <;> decide
    rcases List.mem_cons.mp hl with rfl | hl
    · exact hc
    rcases List.mem_cons.mp hl with rfl | hl
    · decide
    rcases List.mem_cons.mp hl with rfl | hl
    · exact hpb
    rcases List.mem_cons.mp hl with rfl | hl
    · decide
    rcases List.mem_cons.mp hl with rfl | hl
    · decide
    rcases List.mem_cons.mp hl with rfl | hl
    · refine noNLTL_append (noNLTL_append ?_ hpath) ?_ <;> decide
    rcases List.mem_singleton.mp hl with rfl
    decide
  have step2 := cleandocL_template
    ("CREATE EXTERNAL TABLE \"".data ++ schema.data ++ "\".\"".data
      ++ table.data ++ "_".data ++ "parquet".data ++ "\" (".data)
    ";".data
    [columns.data,
     ")".data,
     (partitioned_by_clause partition partition_type has_partition).data,
     "ROW FORMAT SERDE \x27".data
       ++ "org.apache.hadoop.hive.ql.io.parquet.serde.ParquetHiveSerDe".data
       ++ "\x27".data,
     "STORED AS ".data ++ (pyUpper "parquet").data,
     "LOCATION \x27".data
       ++ (create_table_s3_path bucket stream "parquet").data ++ "\x27".data]
    []
    (by simp) rfl (by decide) hchars
    (fun t ht2 => absurd ht2 (List.not_mem_nil t))
  have hraw : ("\n        CREATE EXTERNAL TABLE \"" ++ schema ++ "\".\"" ++ table
      ++ "_" ++ "parquet" ++ "\" (\n        " ++ columns ++ "\n        )\n        "
      ++ partitioned_by_clause partition partition_type has_partition
      ++ "\n        ROW FORMAT SERDE \x27"
      ++ "org.apache.hadoop.hive.ql.io.parquet.serde.ParquetHiveSerDe"
      ++ "\x27\n        STORED AS " ++ pyUpper "parquet"
      ++ "\n        LOCATION \x27" ++ create_table_s3_path bucket stream "parquet"
      ++ "\x27\n        ;").data
      = '\n' :: joinNL (((("CREATE EXTERNAL TABLE \"".data ++ schema.data ++ "\".\"".data
            ++ table.data ++ "_".data ++ "parquet".data ++ "\" (".data)
          :: [columns.data,
              ")".data,
              (partitioned_by_clause partition partition_type has_partition).data,
              "ROW FORMAT SERDE \x27".data
                ++ "org.apache.hadoop.hive.ql.io.parquet.serde.ParquetHiveSerDe".data
                ++ "\x27".data,
              "STORED AS ".data ++ (pyUpper "parquet").data,
              "LOCATION \x27".data
                ++ (create_table_s3_path bucket stream "parquet").data ++ "\x27".data]
          ++ [";".data]).map (fun l => margin8 ++ l)) ++ []) := by
    simp only [String.data_append, List.append_assoc, List.map_cons, List.map_nil,
      List.cons_append, List.nil_append, joinNL, margin8]
  have step3 : joinNL (("CREATE EXTERNAL TABLE \"".data ++ schema.data ++ "\".\"".data
        ++ table.data ++ "_".data ++ "parquet".data ++ "\" (".data)
      :: [columns.data,
          ")".data,
          (partitioned_by_clause partition partition_type has_partition).data,
          "ROW FORMAT SERDE \x27".data
            ++ "org.apache.hadoop.hive.ql.io.parquet.serde.ParquetHiveSerDe".data
            ++ "\x27".data,
          "STORED AS ".data ++ (pyUpper "parquet").data,
          "LOCATION \x27".data
            ++ (create_table_s3_path bucket stream "parquet").data ++ "\x27".data]
      ++ [";".data])
      = ("CREATE EXTERNAL TABLE \"" ++ schema ++ "\".\"" ++ table ++ "_"
        ++ "parquet" ++ "\" (\n" ++ columns ++ "\n)\n"
        ++ partitioned_by_clause partition partition_type has_partition
        ++ "\nROW FORMAT SERDE \x27"
        ++ "org.apache.hadoop.hive.ql.io.parquet.serde.ParquetHiveSerDe"
        ++ "\x27\nSTORED AS " ++ pyUpper "parquet" ++ "\nLOCATION \x27"
        ++ create_table_s3_path bucket stream "parquet" ++ "\x27\n;").data := by
    simp only [String.data_append, List.append_assoc, List.cons_append, List.nil_append, joinNL]
  have hdef : _create_external_table_statement schema table columns bucket stream
        "parquet" partition partition_type partition_value has_partition
      = some (String.mk (cleandocL ("\n        CREATE EXTERNAL TABLE \"" ++ schema
        ++ "\".\"" ++ table ++ "_" ++ "parquet" ++ "\" (\n        " ++ columns
        ++ "\n        )\n        "
        ++ partitioned_by_clause partition partition_type has_partition
        ++ "\n        ROW FORMAT SERDE \x27"
        ++ "org.apache.hadoop.hive.ql.io.parquet.serde.ParquetHiveSerDe"
        ++ "\x27\n        STORED AS " ++ pyUpper "parquet"
        ++ "\n        LOCATION \x27" ++ create_table_s3_path bucket stream "parquet"
        ++ "\x27\n        ;").data)) := rfl
  rw [hdef, hraw, step2]
  exact congrArg some (str_ext _ _ step3)

/-- Structure of the partition-directory location: the lower-cased
components assembled in the fixed `s3://{bucket}/{stream}/ext={format}/{partition}={value}/`
shape. -/
theorem partition_s3_path_eq (bucket stream file_format partition partition_value : String) :
    partition_s3_path bucket stream file_format partition partition_value
      = "s3://" ++ pyLower bucket ++ "/" ++ pyLower stream ++ "/ext="
        ++ pyLower file_format ++ "/" ++ pyLower partition ++ "="
        ++ pyLower partition_value ++ "/" := by
  unfold partition_s3_path
  simp only [pyLower_append]
  rw [show pyLower "s3://" = "s3://" by decide, show pyLower "/" = "/" by decide,
    show pyLower "/ext=" = "/ext=" by decide, show pyLower "=" = "=" by decide]

/-- Structure of the create-table root location: lower-cased components in
the fixed `s3://{bucket}/{stream}/ext={format}/` shape, with no partition
segment. -/
theorem create_table_s3_path_eq (bucket stream file_format : String) :
    create_table_s3_path bucket stream file_format
      = "s3://" ++ pyLower bucket ++ "/" ++ pyLower stream ++ "/ext="
        ++ pyLower file_format ++ "/" := by
  unfold create_table_s3_path
  simp only [pyLower_append]
  rw [show pyLower "s3://" = "s3://" by decide, show pyLower "/" = "/" by decide,
    show pyLower "/ext=" = "/ext=" by decide]

theorem partition_s3_path_lower (bucket stream file_format partition partition_value : String) :
    pyLower (partition_s3_path bucket stream file_format partition partition_value)
      = partition_s3_path bucket stream file_format partition partition_value :=
  pyLower_idem _

theorem create_table_s3_path_lower (bucket stream file_format : String) :
    pyLower (create_table_s3_path bucket stream file_format)
      = create_table_s3_path bucket stream file_format :=
  pyLower_idem _

/-- Full characterization of `to_spectrum` in terms of the four statement
builders, under the hypothesis that the serde lookup (performed inside the
create-table builder on the resolved stream and columns) succeeds. -/
theorem to_spectrum_eq (table external_schema bucket : String) (df_len : Nat)
    (df_schema registry_schema schema_alias stream file_format partition
      partition_type partition_value conn today : String)
    (has_partition : Bool) (probe_rows : Nat) (ext : String)
    (hext : _create_external_table_statement external_schema table
        (if df_len ≠ 0 then df_schema else registry_schema) bucket
        (if stream = "" then table else stream) file_format partition
        partition_type "" has_partition = some ext) :
    to_spectrum table external_schema bucket df_len df_schema registry_schema
        schema_alias stream file_format partition partition_type partition_value
        conn has_partition today probe_rows
      = some
        { script := ext
            ++ (if schema_alias = "" then ""
                else _create_schema_alias_statement schema_alias external_schema table)
            ++ (if has_partition then
                  _create_partition_statement external_schema bucket
                    (if stream = "" then table else stream) "parquet" partition
                    (if partition_value = "" then today else partition_value) today
                else "")
          executed :=
            if conn ≠ "" then
              (if probe_rows = 0 then
                [ext
                  ++ (if schema_alias = "" then ""
                      else _create_schema_alias_statement schema_alias external_schema table)
                  ++ (if has_partition then
                        _create_partition_statement external_schema bucket
                          (if stream = "" then table else stream) "parquet" partition
                          (if partition_value = "" then today else partition_value) today
                      else "")]
               else [])
              ++ [(if has_partition then
                    _create_partition_statement external_schema bucket
                      (if stream = "" then table else stream) "parquet" partition
                      (if partition_value = "" then today else partition_value) today
                  else "")]
            else []
          queried :=
            if conn ≠ "" then
              [_external_table_exists_statement external_schema table]
            else [] } := by
  unfold to_spectrum
  simp only [hext]

theorem str_append_empty (s : String) : s ++ "" = s :=
  str_ext _ _ (by simp [String.data_append])

/-- C2: for every input on which the serde lookup succeeds, `to_spectrum`
returns the concatenation create-table ++ alias-view ++ add-partition, in
that fixed order, and the same text is returned for any `conn`/probe
outcome (in particular with no connection at all). -/
theorem C2_script_concatenation (table external_schema bucket : String) (df_len : Nat)
    (df_schema registry_schema schema_alias stream file_format partition
      partition_type partition_value conn conn2 today : String)
    (has_partition : Bool) (probe_rows probe_rows2 : Nat) (ext : String)
    (hext : _create_external_table_statement external_schema table
        (if df_len ≠ 0 then df_schema else registry_schema) bucket
        (if stream = "" then table else stream) file_format partition
        partition_type "" has_partition = some ext) :
    (to_spectrum table external_schema bucket df_len df_schema registry_schema
        schema_alias stream file_format partition partition_type partition_value
        conn has_partition today probe_rows).map SpectrumResult.script
      = some (ext
          ++ (if schema_alias = "" then ""
              else _create_schema_alias_statement schema_alias external_schema table)
          ++ (if has_partition then
                _create_partition_statement external_schema bucket
                  (if stream = "" then table else stream) "parquet" partition
                  (if partition_value = "" then today else partition_value) today
              else ""))
    ∧ (to_spectrum table external_schema bucket df_len df_schema registry_schema
        schema_alias stream file_format partition partition_type partition_value
        conn has_partition today probe_rows).map SpectrumResult.script
      = (to_spectrum table external_schema bucket df_len df_schema registry_schema
          schema_alias stream file_format partition partition_type partition_value
          conn2 has_partition today probe_rows2).map SpectrumResult.script := by
  rw [to_spectrum_eq table external_schema bucket df_len df_schema registry_schema
      schema_alias stream file_format partition partition_type partition_value
      conn today has_partition probe_rows ext hext,
    to_spectrum_eq table external_schema bucket df_len df_schema registry_schema
      schema_alias stream file_format partition partition_type partition_value
      conn2 today has_partition probe_rows2 ext hext]
  exact ⟨rfl, rfl⟩

/-- C4: for every `file_format` other than `"parquet"` the serde lookup
misses (`none`, the Python `KeyError`), the create-table builder therefore
produces no statement text at all, and `to_spectrum` aborts before any
probe query or execute call (its result is `none`, with no executed and no
queried statement); for `"parquet"` the lookup succeeds. -/
theorem C4_unknown_format_fails_fast (file_format schema table columns bucket
      stream partition partition_type partition_value : String)
    (has_partition : Bool)
    (table2 external_schema2 bucket2 : String) (df_len : Nat)
    (df_schema registry_schema schema_alias stream2 partition2 partition_type2
      partition_value2 conn today : String)
    (has_partition2 : Bool) (probe_rows : Nat)
    (h : file_format ≠ "parquet") :
    _get_file_format_serde file_format = none
    ∧ _create_external_table_statement schema table columns bucket stream
        file_format partition partition_type partition_value has_partition = none
    ∧ to_spectrum table2 external_schema2 bucket2 df_len df_schema registry_schema
        schema_alias stream2 file_format partition2 partition_type2
        partition_value2 conn has_partition2 today probe_rows = none
    ∧ _get_file_format_serde "parquet"
        = some "org.apache.hadoop.hive.ql.io.parquet.serde.ParquetHiveSerDe" := by
  have h1 : _get_file_format_serde file_format = none := by
    simp [_get_file_format_serde, h]
  have h2 : ∀ s t c b st p pt pv (hp : Bool),
      _create_external_table_statement s t c b st file_format p pt pv hp = none := by
    intro s t c b st p pt pv hp
    unfold _create_external_table_statement
    rw [h1]
  refine ⟨h1, h2 schema table columns bucket stream partition partition_type
    partition_value has_partition, ?_, by decide⟩
  unfold to_spectrum
  simp only [h2]

set_option maxRecDepth 16384 in
/-- C5: on the concrete example (schema `analytics`, table and stream
`events`, bucket `data-lake`, format `parquet`, partition `dt date` valued
`2024-01-15`, columns `cola date`), the create statement targets
`"analytics"."events_parquet"` with the root location, and the partition
statement targets `"analytics"."events_parquet"` with the partition
location; the equalities are split so that the claimed fragments appear as
explicit components. -/
theorem C5_concrete_example :
    _create_external_table_statement "analytics" "events" "cola date" "data-lake"
        "events" "parquet" "dt" "date" "" true
      = some ("CREATE EXTERNAL TABLE " ++ "\"analytics\".\"events_parquet\""
        ++ " (\ncola date\n)\nPARTITIONED BY (dt date)\nROW FORMAT SERDE \x27org.apache.hadoop.hive.ql.io.parquet.serde.ParquetHiveSerDe\x27\nSTORED AS PARQUET\n"
        ++ "LOCATION \x27s3://data-lake/events/ext=parquet/\x27" ++ "\n;")
    ∧ _create_partition_statement "analytics" "data-lake" "events" "parquet" "dt"
        "2024-01-15" "1970-01-01"
      = "ALTER TABLE " ++ "\"analytics\".\"events_parquet\""
        ++ "\nADD PARTITION (dt=\x272024-01-15\x27)\n"
        ++ "LOCATION \x27s3://data-lake/events/ext=parquet/dt=2024-01-15/\x27"
        ++ "\n;" := by decide

/-- C6: for all inputs, the partition-directory location is structurally
`s3://{bucket}/{stream}/ext={format}/{partition}={value}/` over the
lower-cased components, the create-table root location is structurally
`s3://{bucket}/{stream}/ext={format}/` with the partition segment always
omitted, and both are entirely lower-case (fixed points of lowering). -/
theorem C6_s3_path_structure (bucket stream file_format partition partition_value : String) :
    partition_s3_path bucket stream file_format partition partition_value
      = "s3://" ++ pyLower bucket ++ "/" ++ pyLower stream ++ "/ext="
        ++ pyLower file_format ++ "/" ++ pyLower partition ++ "="
        ++ pyLower partition_value ++ "/"
    ∧ create_table_s3_path bucket stream file_format
      = "s3://" ++ pyLower bucket ++ "/" ++ pyLower stream ++ "/ext="
        ++ pyLower file_format ++ "/"
    ∧ pyLower (partition_s3_path bucket stream file_format partition partition_value)
      = partition_s3_path bucket stream file_format partition partition_value
    ∧ pyLower (create_table_s3_path bucket stream file_format)
      = create_table_s3_path bucket stream file_format :=
  ⟨partition_s3_path_eq bucket stream file_format partition partition_value,
   create_table_s3_path_eq bucket stream file_format,
   partition_s3_path_lower bucket stream file_format partition partition_value,
   create_table_s3_path_lower bucket stream file_format⟩

set_option maxRecDepth 16384 in
/-- C9: what `_build_s3_stream_path` actually returns on the canonical
input: the partition segment has no trailing slash, the stream name is
glued directly after the partition value, and a newline is embedded before
`/{stream}.snappy` — it is not the claimed
`s3://{bucket}/{stream}/ext={format}/{partition}={value}/{stream}.snappy`. -/
theorem C9_path_actual_value :
    _build_s3_stream_path "data-lake" "events" "parquet" "dt" "2024-01-15" true
      = "s3://data-lake/events/ext=parquet/dt=2024-01-15events\n/events.snappy"
    ∧ _build_s3_stream_path "data-lake" "events" "parquet" "dt" "2024-01-15" true
      ≠ "s3://data-lake/events/ext=parquet/dt=2024-01-15/" ++ "events.snappy"
    ∧ _build_s3_stream_path "data-lake" "events" "parquet" "dt" "2024-01-15" false
      = "s3://data-lake/events/ext=parquet/events\n/events.snappy"
    ∧ containsSub "\n" (_build_s3_stream_path "data-lake" "events" "parquet" "dt"
        "2024-01-15" true) = true := by decide

set_option maxRecDepth 16384 in
/-- Counterexample to C1 as stated: on a live connection whose probe
returns zero rows, the first `execute` call receives the whole concatenated
script — create-table followed by the add-partition statement (the alias
component is empty here) — and not the create-table-and-alias text alone;
the two texts differ. -/
theorem C1_counterexample :
    to_spectrum "events" "analytics" "data-lake" 0 "" "cola date" "" ""
        "parquet" "dt" "date" "2024-01-15" "conn" true "1970-01-01" 0
      = some
        { script :=
            "CREATE EXTERNAL TABLE \"analytics\".\"events_parquet\" (\ncola date\n)\nPARTITIONED BY (dt date)\nROW FORMAT SERDE \x27org.apache.hadoop.hive.ql.io.parquet.serde.ParquetHiveSerDe\x27\nSTORED AS PARQUET\nLOCATION \x27s3://data-lake/events/ext=parquet/\x27\n;"
              ++ "ALTER TABLE \"analytics\".\"events_parquet\"\nADD PARTITION (dt=\x272024-01-15\x27)\nLOCATION \x27s3://data-lake/events/ext=parquet/dt=2024-01-15/\x27\n;"
          executed :=
            ["CREATE EXTERNAL TABLE \"analytics\".\"events_parquet\" (\ncola date\n)\nPARTITIONED BY (dt date)\nROW FORMAT SERDE \x27org.apache.hadoop.hive.ql.io.parquet.serde.ParquetHiveSerDe\x27\nSTORED AS PARQUET\nLOCATION \x27s3://data-lake/events/ext=parquet/\x27\n;"
               ++ "ALTER TABLE \"analytics\".\"events_parquet\"\nADD PARTITION (dt=\x272024-01-15\x27)\nLOCATION \x27s3://data-lake/events/ext=parquet/dt=2024-01-15/\x27\n;",
             "ALTER TABLE \"analytics\".\"events_parquet\"\nADD PARTITION (dt=\x272024-01-15\x27)\nLOCATION \x27s3://data-lake/events/ext=parquet/dt=2024-01-15/\x27\n;"]
          queried :=
            ["SELECT distinct(schemaname || tablename) as schema_table\nFROM SVV_EXTERNAL_COLUMNS\nWHERE schemaname || tablename = \x27analyticsevents\x27\n;"] }
    ∧ ("CREATE EXTERNAL TABLE \"analytics\".\"events_parquet\" (\ncola date\n)\nPARTITIONED BY (dt date)\nROW FORMAT SERDE \x27org.apache.hadoop.hive.ql.io.parquet.serde.ParquetHiveSerDe\x27\nSTORED AS PARQUET\nLOCATION \x27s3://data-lake/events/ext=parquet/\x27\n;"
        ++ "ALTER TABLE \"analytics\".\"events_parquet\"\nADD PARTITION (dt=\x272024-01-15\x27)\nLOCATION \x27s3://data-lake/events/ext=parquet/dt=2024-01-15/\x27\n;")
      ≠ "CREATE EXTERNAL TABLE \"analytics\".\"events_parquet\" (\ncola date\n)\nPARTITIONED BY (dt date)\nROW FORMAT SERDE \x27org.apache.hadoop.hive.ql.io.parquet.serde.ParquetHiveSerDe\x27\nSTORED AS PARQUET\nLOCATION \x27s3://data-lake/events/ext=parquet/\x27\n;" := by
  decide

/-- C1 (amended): with a live connection, `to_spectrum` first issues the
existence probe; if it reports zero rows the whole concatenated script
(create-table, alias-view and add-partition together) is executed, and
then, independently of the probe outcome, the add-partition statement is
executed; on non-zero rows only the add-partition statement is executed,
so the create-table text is never re-issued. -/
theorem C1_execution_trace (table external_schema bucket : String) (df_len : Nat)
    (df_schema registry_schema schema_alias stream file_format partition
      partition_type partition_value conn today : String)
    (has_partition : Bool) (probe_rows : Nat) (ext : String)
    (hext : _create_external_table_statement external_schema table
        (if df_len ≠ 0 then df_schema else registry_schema) bucket
        (if stream = "" then table else stream) file_format partition
        partition_type "" has_partition = some ext)
    (hconn : conn ≠ "") :
    to_spectrum table external_schema bucket df_len df_schema registry_schema
        schema_alias stream file_format partition partition_type partition_value
        conn has_partition today probe_rows
      = some
        { script := ext
            ++ (if schema_alias = "" then ""
                else _create_schema_alias_statement schema_alias external_schema table)
            ++ (if has_partition then
                  _create_partition_statement external_schema bucket
                    (if stream = "" then table else stream) "parquet" partition
                    (if partition_value = "" then today else partition_value) today
                else "")
          executed :=
            (if probe_rows = 0 then
              [ext
                ++ (if schema_alias = "" then ""
                    else _create_schema_alias_statement schema_alias external_schema table)
                ++ (if has_partition then
                      _create_partition_statement external_schema bucket
                        (if stream = "" then table else stream) "parquet" partition
                        (if partition_value = "" then today else partition_value) today
                    else "")]
             else [])
            ++ [(if has_partition then
                  _create_partition_statement external_schema bucket
                    (if stream = "" then table else stream) "parquet" partition
                    (if partition_value = "" then today else partition_value) today
                else "")]
          queried := [_external_table_exists_statement external_schema table] } := by
  rw [to_spectrum_eq table external_schema bucket df_len df_schema registry_schema
      schema_alias stream file_format partition partition_type partition_value
      conn today has_partition probe_rows ext hext]
  simp [hconn]

/-- C3: the existence probe is exactly the fixed template around the
*unsuffixed* concatenation `schema ++ table` (no format suffix occurs in
it), while the create-external-table statement targets the physical name
`"{schema}"."{table}_{format}"` and the add-partition statement targets the
physical name `"{schema}"."{stream}_{format}"` — suffixed, and keyed on
`stream` rather than `table`. -/
theorem C3_name_references (schema table stream file_format partition
      partition_type partition_value columns bucket serde today : String)
    (has_partition : Bool)
    (hser : _get_file_format_serde file_format = some serde)
    (hs : noNLT schema) (ht : noNLT table) (hstr : noNLT stream)
    (hp : noNLT partition) (hpt : noNLT partition_type)
    (hpv : noNLT partition_value) (hto : noNLT today)
    (hc : noNLT columns) (hb : noNLT bucket) :
    _external_table_exists_statement schema table
      = "SELECT distinct(schemaname || tablename) as schema_table\nFROM SVV_EXTERNAL_COLUMNS\nWHERE schemaname || tablename = \x27"
        ++ schema ++ table ++ "\x27\n;"
    ∧ _create_external_table_statement schema table columns bucket stream
        file_format partition partition_type partition_value has_partition
      = some ("CREATE EXTERNAL TABLE \"" ++ schema ++ "\".\"" ++ table ++ "_"
        ++ file_format ++ "\" (\n" ++ columns ++ "\n)\n"
        ++ partitioned_by_clause partition partition_type has_partition
        ++ "\nROW FORMAT SERDE \x27" ++ serde ++ "\x27\nSTORED AS "
        ++ pyUpper file_format ++ "\nLOCATION \x27"
        ++ create_table_s3_path bucket stream file_format ++ "\x27\n;")
    ∧ _create_partition_statement schema bucket stream file_format partition
        partition_value today
      = "ALTER TABLE \"" ++ schema ++ "\".\"" ++ stream ++ "_" ++ file_format
        ++ "\"\nADD PARTITION (" ++ partition ++ "=\x27"
        ++ (if partition_value = "" then today else partition_value)
        ++ "\x27)\nLOCATION \x27"
        ++ partition_s3_path bucket stream file_format partition
             (if partition_value = "" then today else partition_value)
        ++ "\x27\n;" := by
  obtain ⟨hfp, hsd⟩ := serde_lookup_parquet file_format serde hser
  refine ⟨exists_statement_chars schema table hs ht,
    create_statement_chars schema table columns bucket stream file_format
      partition partition_type partition_value serde has_partition hser
      hs ht hc hb hstr hp hpt,
    ?_⟩
  subst hfp
  exact partition_statement_chars schema bucket stream "parquet" partition
    partition_value today hs hb hstr (by decide) hp hpv hto

set_option maxRecDepth 16384 in
/-- C7: with partitioning disabled the `PARTITIONED BY` clause is the empty
string, the add-partition component of the script is absent (the script is
exactly create-table ++ alias), and on a canonical concrete run the full
returned script contains neither the text `PARTITIONED BY` nor the text
`ALTER TABLE`. -/
theorem C7_no_partition_artifacts (table external_schema bucket : String) (df_len : Nat)
    (df_schema registry_schema schema_alias stream file_format partition
      partition_type partition_value conn today : String)
    (probe_rows : Nat) (ext : String) (r : SpectrumResult)
    (hext : _create_external_table_statement external_schema table
        (if df_len ≠ 0 then df_schema else registry_schema) bucket
        (if stream = "" then table else stream) file_format partition
        partition_type "" false = some ext)
    (hr : to_spectrum table external_schema bucket df_len df_schema registry_schema
        schema_alias stream file_format partition partition_type partition_value
        conn false today probe_rows = some r) :
    r.script = ext
      ++ (if schema_alias = "" then ""
          else _create_schema_alias_statement schema_alias external_schema table)
    ∧ partitioned_by_clause partition partition_type false = ""
    ∧ ((to_spectrum "events" "analytics" "data-lake" 0 "" "cola date" "pub" ""
          "parquet" "dt" "date" "2024-01-15" "conn" false "1970-01-01" 0).map
        (fun r2 => containsSub "PARTITIONED BY" r2.script
          || containsSub "ALTER TABLE" r2.script)) = some false := by
  rw [to_spectrum_eq table external_schema bucket df_len df_schema registry_schema
      schema_alias stream file_format partition partition_type partition_value
      conn today false probe_rows ext hext] at hr
  obtain rfl := (Option.some.inj hr).symm
  refine ⟨?_, rfl, by decide⟩
  simp [str_append_empty]

/-- C8: the script is create-table ++ alias-component ++ partition-component
where the alias component is non-empty exactly when a non-empty alias
schema is supplied, and in that case it is the `CREATE VIEW` statement over
the unsuffixed logical table name with `WITH NO SCHEMA BINDING`. -/
theorem C8_alias_view_iff (table external_schema bucket : String) (df_len : Nat)
    (df_schema registry_schema schema_alias stream file_format partition
      partition_type partition_value conn today : String)
    (has_partition : Bool) (probe_rows : Nat) (ext : String) (r : SpectrumResult)
    (hext : _create_external_table_statement external_schema table
        (if df_len ≠ 0 then df_schema else registry_schema) bucket
        (if stream = "" then table else stream) file_format partition
        partition_type "" has_partition = some ext)
    (hr : to_spectrum table external_schema bucket df_len df_schema registry_schema
        schema_alias stream file_format partition partition_type partition_value
        conn has_partition today probe_rows = some r)
    (hal : noNLT schema_alias) (hes : noNLT external_schema) (htb : noNLT table) :
    r.script = ext
      ++ (if schema_alias = "" then ""
          else _create_schema_alias_statement schema_alias external_schema table)
      ++ (if has_partition then
            _create_partition_statement external_schema bucket
              (if stream = "" then table else stream) "parquet" partition
              (if partition_value = "" then today else partition_value) today
          else "")
    ∧ ((if schema_alias = "" then ""
        else _create_schema_alias_statement schema_alias external_schema table) ≠ ""
        ↔ schema_alias ≠ "")
    ∧ (schema_alias ≠ "" →
        _create_schema_alias_statement schema_alias external_schema table
          = "CREATE VIEW \"" ++ schema_alias ++ "\".\"" ++ table
            ++ "\" AS\nSELECT * FROM \"" ++ external_schema ++ "\".\"" ++ table
            ++ "\"\nWITH NO SCHEMA BINDING;") := by
  rw [to_spectrum_eq table external_schema bucket df_len df_schema registry_schema
      schema_alias stream file_format partition partition_type partition_value
      conn today has_partition probe_rows ext hext] at hr
  obtain rfl := (Option.some.inj hr).symm
  refine ⟨rfl, ?_, fun h => alias_statement_chars schema_alias external_schema table
    hal hes htb⟩
  by_cases h : schema_alias = ""
  · simp [h]
  · rw [if_neg h, alias_statement_chars schema_alias external_schema table hal hes htb]
    constructor
    · intro _; exact h
    · intro _ heq
      have hd := congrArg String.data heq
      simp [String.data_append] at hd

/-- C10: with a live connection and partitioning disabled, the final
execute call is still issued and carries the empty partition statement:
the execute trace always ends with the empty string, after the conditional
create. -/
theorem C10_empty_partition_execute (table external_schema bucket : String) (df_len : Nat)
    (df_schema registry_schema schema_alias stream file_format partition
      partition_type partition_value conn today : String)
    (probe_rows : Nat) (ext : String) (r : SpectrumResult)
    (hext : _create_external_table_statement external_schema table
        (if df_len ≠ 0 then df_schema else registry_schema) bucket
        (if stream = "" then table else stream) file_format partition
        partition_type "" false = some ext)
    (hconn : conn ≠ "")
    (hr : to_spectrum table external_schema bucket df_len df_schema registry_schema
        schema_alias stream file_format partition partition_type partition_value
        conn false today probe_rows = some r) :
    r.executed = (if probe_rows = 0 then [r.script] else []) ++ [""]
    ∧ r.executed.getLast? = some "" := by
  rw [to_spectrum_eq table external_schema bucket df_len df_schema registry_schema
      schema_alias stream file_format partition partition_type partition_value
      conn today false probe_rows ext hext] at hr
  obtain rfl := (Option.some.inj hr).symm
  constructor
  · simp [hconn]
  · simp only [hconn, ne_eq, not_false_eq_true, if_true, ite_true]
    split <;> rfl

set_option maxRecDepth 16384 in
set_option maxHeartbeats 1000000 in
/-- Witness for C1 at a concrete input. -/
theorem C1_execution_trace_witness :
    (_create_external_table_statement "analytics" "events" (if (0:Nat) ≠ 0 then "x" else "cola date") "data-lake" (if "" = "" then "events" else "") "parquet" "dt" "date" "" true = some "CREATE EXTERNAL TABLE \"analytics\".\"events_parquet\" (\ncola date\n)\nPARTITIONED BY (dt date)\nROW FORMAT SERDE \x27org.apache.hadoop.hive.ql.io.parquet.serde.ParquetHiveSerDe\x27\nSTORED AS PARQUET\nLOCATION \x27s3://data-lake/events/ext=parquet/\x27\n;")
    ∧ ("conn" : String) ≠ ""
    ∧ (to_spectrum "events" "analytics" "data-lake" 0 "x" "cola date" "pub" "" "parquet" "dt" "date" "2024-01-15" "conn" true "1970-01-01" 0
      = some
        { script := "CREATE EXTERNAL TABLE \"analytics\".\"events_parquet\" (\ncola date\n)\nPARTITIONED BY (dt date)\nROW FORMAT SERDE \x27org.apache.hadoop.hive.ql.io.parquet.serde.ParquetHiveSerDe\x27\nSTORED AS PARQUET\nLOCATION \x27s3://data-lake/events/ext=parquet/\x27\n;"
        ++ (if "pub" = "" then "" else _create_schema_alias_statement "pub" "analytics" "events")
        ++ (if true then _create_partition_statement "analytics" "data-lake" (if "" = "" then "events" else "") "parquet" "dt" (if "2024-01-15" = "" then "1970-01-01" else "2024-01-15") "1970-01-01" else "")
          executed :=
            (if (0:Nat) = 0 then
              ["CREATE EXTERNAL TABLE \"analytics\".\"events_parquet\" (\ncola date\n)\nPARTITIONED BY (dt date)\nROW FORMAT SERDE \x27org.apache.hadoop.hive.ql.io.parquet.serde.ParquetHiveSerDe\x27\nSTORED AS PARQUET\nLOCATION \x27s3://data-lake/events/ext=parquet/\x27\n;"
        ++ (if "pub" = "" then "" else _create_schema_alias_statement "pub" "analytics" "events")
        ++ (if true then _create_partition_statement "analytics" "data-lake" (if "" = "" then "events" else "") "parquet" "dt" (if "2024-01-15" = "" then "1970-01-01" else "2024-01-15") "1970-01-01" else "")]
             else [])
            ++ [(if true then _create_partition_statement "analytics" "data-lake" (if "" = "" then "events" else "") "parquet" "dt" (if "2024-01-15" = "" then "1970-01-01" else "2024-01-15") "1970-01-01" else "")]
          queried := [_external_table_exists_statement "analytics" "events"] }) :=
  ⟨by decide, by decide,
    C1_execution_trace "events" "analytics" "data-lake" 0 "x" "cola date" "pub" ""
      "parquet" "dt" "date" "2024-01-15" "conn" "1970-01-01" true 0
      "CREATE EXTERNAL TABLE \"analytics\".\"events_parquet\" (\ncola date\n)\nPARTITIONED BY (dt date)\nROW FORMAT SERDE \x27org.apache.hadoop.hive.ql.io.parquet.serde.ParquetHiveSerDe\x27\nSTORED AS PARQUET\nLOCATION \x27s3://data-lake/events/ext=parquet/\x27\n;" (by decide) (by decide)⟩


set_option maxRecDepth 16384 in
set_option maxHeartbeats 1000000 in
/-- Witness for C2 at a concrete input. -/
theorem C2_script_concatenation_witness :
    (_create_external_table_statement "analytics" "events" (if (0:Nat) ≠ 0 then "x" else "cola date") "data-lake" (if "" = "" then "events" else "") "parquet" "dt" "date" "" true = some "CREATE EXTERNAL TABLE \"analytics\".\"events_parquet\" (\ncola date\n)\nPARTITIONED BY (dt date)\nROW FORMAT SERDE \x27org.apache.hadoop.hive.ql.io.parquet.serde.ParquetHiveSerDe\x27\nSTORED AS PARQUET\nLOCATION \x27s3://data-lake/events/ext=parquet/\x27\n;")
    ∧ (((to_spectrum "events" "analytics" "data-lake" 0 "x" "cola date" "pub" "" "parquet" "dt" "date" "2024-01-15" "conn" true "1970-01-01" 0).map SpectrumResult.script
      = some ("CREATE EXTERNAL TABLE \"analytics\".\"events_parquet\" (\ncola date\n)\nPARTITIONED BY (dt date)\nROW FORMAT SERDE \x27org.apache.hadoop.hive.ql.io.parquet.serde.ParquetHiveSerDe\x27\nSTORED AS PARQUET\nLOCATION \x27s3://data-lake/events/ext=parquet/\x27\n;"
        ++ (if "pub" = "" then "" else _create_schema_alias_statement "pub" "analytics" "events")
        ++ (if true then _create_partition_statement "analytics" "data-lake" (if "" = "" then "events" else "") "parquet" "dt" (if "2024-01-15" = "" then "1970-01-01" else "2024-01-15") "1970-01-01" else "")))
      ∧ ((to_spectrum "events" "analytics" "data-lake" 0 "x" "cola date" "pub" "" "parquet" "dt" "date" "2024-01-15" "conn" true "1970-01-01" 0).map SpectrumResult.script
      = (to_spectrum "events" "analytics" "data-lake" 0 "x" "cola date" "pub" "" "parquet" "dt" "date" "2024-01-15" "" true "1970-01-01" 5).map SpectrumResult.script)) :=
  ⟨by decide,
    C2_script_concatenation "events" "analytics" "data-lake" 0 "x" "cola date" "pub" ""
      "parquet" "dt" "date" "2024-01-15" "conn" "" "1970-01-01" true 0 5
      "CREATE EXTERNAL TABLE \"analytics\".\"events_parquet\" (\ncola date\n)\nPARTITIONED BY (dt date)\nROW FORMAT SERDE \x27org.apache.hadoop.hive.ql.io.parquet.serde.ParquetHiveSerDe\x27\nSTORED AS PARQUET\nLOCATION \x27s3://data-lake/events/ext=parquet/\x27\n;" (by decide)⟩

set_option maxRecDepth 16384 in
set_option maxHeartbeats 1000000 in
/-- Witness for C3 at a concrete input. -/
theorem C3_name_references_witness :
    (_get_file_format_serde "parquet" = some "org.apache.hadoop.hive.ql.io.parquet.serde.ParquetHiveSerDe")
    ∧ noNLT "analytics"
    ∧ ((_external_table_exists_statement "analytics" "events"
      = "SELECT distinct(schemaname || tablename) as schema_table\nFROM SVV_EXTERNAL_COLUMNS\nWHERE schemaname || tablename = \x27"
        ++ "analytics" ++ "events" ++ "\x27\n;")
      ∧ (_create_external_table_statement "analytics" "events" "cola date" "data-lake" "events"
        "parquet" "dt" "date" "2024-01-15" true
      = some ("CREATE EXTERNAL TABLE \"" ++ "analytics" ++ "\".\"" ++ "events" ++ "_"
        ++ "parquet" ++ "\" (\n" ++ "cola date" ++ "\n)\n"
        ++ partitioned_by_clause "dt" "date" true
        ++ "\nROW FORMAT SERDE \x27" ++ "org.apache.hadoop.hive.ql.io.parquet.serde.ParquetHiveSerDe" ++ "\x27\nSTORED AS "
        ++ pyUpper "parquet" ++ "\nLOCATION \x27"
        ++ create_table_s3_path "data-lake" "events" "parquet" ++ "\x27\n;"))
      ∧ (_create_partition_statement "analytics" "data-lake" "events" "parquet" "dt"
        "2024-01-15" "1970-01-01"
      = "ALTER TABLE \"" ++ "analytics" ++ "\".\"" ++ "events" ++ "_" ++ "parquet"
        ++ "\"\nADD PARTITION (" ++ "dt" ++ "=\x27" ++ (if "2024-01-15" = "" then "1970-01-01" else "2024-01-15")
        ++ "\x27)\nLOCATION \x27"
        ++ partition_s3_path "data-lake" "events" "parquet" "dt" (if "2024-01-15" = "" then "1970-01-01" else "2024-01-15")
        ++ "\x27\n;")) :=
  ⟨by decide, by decide,
    C3_name_references "analytics" "events" "events" "parquet" "dt" "date"
      "2024-01-15" "cola date" "data-lake" "org.apache.hadoop.hive.ql.io.parquet.serde.ParquetHiveSerDe" "1970-01-01" true
      (by decide) (by decide) (by decide) (by decide) (by decide) (by decide)
      (by decide) (by decide) (by decide) (by decide)⟩


set_option maxRecDepth 16384 in
/-- Witness for C4 at the concrete unknown format `"avro"`. -/
theorem C4_unknown_format_fails_fast_witness :
    ("avro" : String) ≠ "parquet"
    ∧ (_get_file_format_serde "avro" = none
    ∧ _create_external_table_statement "analytics" "events" "cola date" "data-lake" "events"
        "avro" "dt" "date" "" true = none
    ∧ to_spectrum "events" "analytics" "data-lake" 0 "x" "cola date" "pub" "" "avro" "dt"
        "date" "2024-01-15" "conn" true "1970-01-01" 0 = none
    ∧ _get_file_format_serde "parquet"
        = some "org.apache.hadoop.hive.ql.io.parquet.serde.ParquetHiveSerDe") :=
  ⟨by decide,
    C4_unknown_format_fails_fast "avro" "analytics" "events" "cola date" "data-lake"
      "events" "dt" "date" "" true "events" "analytics" "data-lake" 0 "x" "cola date"
      "pub" "" "dt" "date" "2024-01-15" "conn" "1970-01-01" true 0 (by decide)⟩


set_option maxRecDepth 16384 in
set_option maxHeartbeats 1000000 in
/-- Witness for C7 at a concrete input. -/
theorem C7_no_partition_artifacts_witness :
    (_create_external_table_statement "analytics" "events" (if (0:Nat) ≠ 0 then "x" else "cola date") "data-lake" (if "" = "" then "events" else "") "parquet" "dt" "date" "" false = some "CREATE EXTERNAL TABLE \"analytics\".\"events_parquet\" (\ncola date\n)\n\nROW FORMAT SERDE \x27org.apache.hadoop.hive.ql.io.parquet.serde.ParquetHiveSerDe\x27\nSTORED AS PARQUET\nLOCATION \x27s3://data-lake/events/ext=parquet/\x27\n;")
    ∧ (to_spectrum "events" "analytics" "data-lake" 0 "x" "cola date" "pub" "" "parquet" "dt" "date" "2024-01-15" "" false "1970-01-01" 0
        = some { script := "CREATE EXTERNAL TABLE \"analytics\".\"events_parquet\" (\ncola date\n)\n\nROW FORMAT SERDE \x27org.apache.hadoop.hive.ql.io.parquet.serde.ParquetHiveSerDe\x27\nSTORED AS PARQUET\nLOCATION \x27s3://data-lake/events/ext=parquet/\x27\n;" ++ "CREATE VIEW \"pub\".\"events\" AS\nSELECT * FROM \"analytics\".\"events\"\nWITH NO SCHEMA BINDING;", executed := [], queried := [] })
    ∧ (({ script := "CREATE EXTERNAL TABLE \"analytics\".\"events_parquet\" (\ncola date\n)\n\nROW FORMAT SERDE \x27org.apache.hadoop.hive.ql.io.parquet.serde.ParquetHiveSerDe\x27\nSTORED AS PARQUET\nLOCATION \x27s3://data-lake/events/ext=parquet/\x27\n;" ++ "CREATE VIEW \"pub\".\"events\" AS\nSELECT * FROM \"analytics\".\"events\"\nWITH NO SCHEMA BINDING;", executed := [], queried := [] } : SpectrumResult).script = "CREATE EXTERNAL TABLE \"analytics\".\"events_parquet\" (\ncola date\n)\n\nROW FORMAT SERDE \x27org.apache.hadoop.hive.ql.io.parquet.serde.ParquetHiveSerDe\x27\nSTORED AS PARQUET\nLOCATION \x27s3://data-lake/events/ext=parquet/\x27\n;"
      ++ (if "pub" = "" then "" else _create_schema_alias_statement "pub" "analytics" "events")
    ∧ partitioned_by_clause "dt" "date" false = ""
    ∧ ((to_spectrum "events" "analytics" "data-lake" 0 "" "cola date" "pub" ""
          "parquet" "dt" "date" "2024-01-15" "conn" false "1970-01-01" 0).map
        (fun r2 => containsSub "PARTITIONED BY" r2.script
          || containsSub "ALTER TABLE" r2.script)) = some false) :=
  ⟨by decide, by decide,
    C7_no_partition_artifacts "events" "analytics" "data-lake" 0 "x" "cola date" "pub" ""
      "parquet" "dt" "date" "2024-01-15" "" "1970-01-01" 0
      "CREATE EXTERNAL TABLE \"analytics\".\"events_parquet\" (\ncola date\n)\n\nROW FORMAT SERDE \x27org.apache.hadoop.hive.ql.io.parquet.serde.ParquetHiveSerDe\x27\nSTORED AS PARQUET\nLOCATION \x27s3://data-lake/events/ext=parquet/\x27\n;"
      { script := "CREATE EXTERNAL TABLE \"analytics\".\"events_parquet\" (\ncola date\n)\n\nROW FORMAT SERDE \x27org.apache.hadoop.hive.ql.io.parquet.serde.ParquetHiveSerDe\x27\nSTORED AS PARQUET\nLOCATION \x27s3://data-lake/events/ext=parquet/\x27\n;" ++ "CREATE VIEW \"pub\".\"events\" AS\nSELECT * FROM \"analytics\".\"events\"\nWITH NO SCHEMA BINDING;", executed := [], queried := [] }
      (by decide) (by decide)⟩


set_option maxRecDepth 16384 in
set_option maxHeartbeats 1000000 in
/-- Witness for C8 at a concrete input. -/
theorem C8_alias_view_iff_witness :
    (_create_external_table_statement "analytics" "events" (if (0:Nat) ≠ 0 then "x" else "cola date") "data-lake" (if "" = "" then "events" else "") "parquet" "dt" "date" "" true = some "CREATE EXTERNAL TABLE \"analytics\".\"events_parquet\" (\ncola date\n)\nPARTITIONED BY (dt date)\nROW FORMAT SERDE \x27org.apache.hadoop.hive.ql.io.parquet.serde.ParquetHiveSerDe\x27\nSTORED AS PARQUET\nLOCATION \x27s3://data-lake/events/ext=parquet/\x27\n;")
    ∧ (to_spectrum "events" "analytics" "data-lake" 0 "x" "cola date" "pub" "" "parquet" "dt" "date" "2024-01-15" "" true "1970-01-01" 0
        = some { script := "CREATE EXTERNAL TABLE \"analytics\".\"events_parquet\" (\ncola date\n)\nPARTITIONED BY (dt date)\nROW FORMAT SERDE \x27org.apache.hadoop.hive.ql.io.parquet.serde.ParquetHiveSerDe\x27\nSTORED AS PARQUET\nLOCATION \x27s3://data-lake/events/ext=parquet/\x27\n;" ++ "CREATE VIEW \"pub\".\"events\" AS\nSELECT * FROM \"analytics\".\"events\"\nWITH NO SCHEMA BINDING;" ++ "ALTER TABLE \"analytics\".\"events_parquet\"\nADD PARTITION (dt=\x272024-01-15\x27)\nLOCATION \x27s3://data-lake/events/ext=parquet/dt=2024-01-15/\x27\n;", executed := [], queried := [] })
    ∧ (({ script := "CREATE EXTERNAL TABLE \"analytics\".\"events_parquet\" (\ncola date\n)\nPARTITIONED BY (dt date)\nROW FORMAT SERDE \x27org.apache.hadoop.hive.ql.io.parquet.serde.ParquetHiveSerDe\x27\nSTORED AS PARQUET\nLOCATION \x27s3://data-lake/events/ext=parquet/\x27\n;" ++ "CREATE VIEW \"pub\".\"events\" AS\nSELECT * FROM \"analytics\".\"events\"\nWITH NO SCHEMA BINDING;" ++ "ALTER TABLE \"analytics\".\"events_parquet\"\nADD PARTITION (dt=\x272024-01-15\x27)\nLOCATION \x27s3://data-lake/events/ext=parquet/dt=2024-01-15/\x27\n;", executed := [], queried := [] } : SpectrumResult).script
      = "CREATE EXTERNAL TABLE \"analytics\".\"events_parquet\" (\ncola date\n)\nPARTITIONED BY (dt date)\nROW FORMAT SERDE \x27org.apache.hadoop.hive.ql.io.parquet.serde.ParquetHiveSerDe\x27\nSTORED AS PARQUET\nLOCATION \x27s3://data-lake/events/ext=parquet/\x27\n;"
      ++ (if "pub" = "" then "" else _create_schema_alias_statement "pub" "analytics" "events")
      ++ (if true then _create_partition_statement "analytics" "data-lake" (if "" = "" then "events" else "") "parquet" "dt" (if "2024-01-15" = "" then "1970-01-01" else "2024-01-15") "1970-01-01" else "")
    ∧ (((if "pub" = "" then "" else _create_schema_alias_statement "pub" "analytics" "events") ≠ "") ↔ ("pub" : String) ≠ "")
    ∧ (("pub" : String) ≠ "" →
        _create_schema_alias_statement "pub" "analytics" "events"
          = "CREATE VIEW \"" ++ "pub" ++ "\".\"" ++ "events"
            ++ "\" AS\nSELECT * FROM \"" ++ "analytics" ++ "\".\"" ++ "events"
            ++ "\"\nWITH NO SCHEMA BINDING;")) :=
  ⟨by decide, by decide,
    C8_alias_view_iff "events" "analytics" "data-lake" 0 "x" "cola date" "pub" ""
      "parquet" "dt" "date" "2024-01-15" "" "1970-01-01" true 0
      "CREATE EXTERNAL TABLE \"analytics\".\"events_parquet\" (\ncola date\n)\nPARTITIONED BY (dt date)\nROW FORMAT SERDE \x27org.apache.hadoop.hive.ql.io.parquet.serde.ParquetHiveSerDe\x27\nSTORED AS PARQUET\nLOCATION \x27s3://data-lake/events/ext=parquet/\x27\n;"
      { script := "CREATE EXTERNAL TABLE \"analytics\".\"events_parquet\" (\ncola date\n)\nPARTITIONED BY (dt date)\nROW FORMAT SERDE \x27org.apache.hadoop.hive.ql.io.parquet.serde.ParquetHiveSerDe\x27\nSTORED AS PARQUET\nLOCATION \x27s3://data-lake/events/ext=parquet/\x27\n;" ++ "CREATE VIEW \"pub\".\"events\" AS\nSELECT * FROM \"analytics\".\"events\"\nWITH NO SCHEMA BINDING;" ++ "ALTER TABLE \"analytics\".\"events_parquet\"\nADD PARTITION (dt=\x272024-01-15\x27)\nLOCATION \x27s3://data-lake/events/ext=parquet/dt=2024-01-15/\x27\n;", executed := [], queried := [] }
      (by decide) (by decide) (by decide) (by decide) (by decide)⟩


set_option maxRecDepth 16384 in
set_option maxHeartbeats 1000000 in
/-- Witness for C10 at a concrete input. -/
theorem C10_empty_partition_execute_witness :
    (_create_external_table_statement "analytics" "events" (if (0:Nat) ≠ 0 then "x" else "cola date") "data-lake" (if "" = "" then "events" else "") "parquet" "dt" "date" "" false = some "CREATE EXTERNAL TABLE \"analytics\".\"events_parquet\" (\ncola date\n)\n\nROW FORMAT SERDE \x27org.apache.hadoop.hive.ql.io.parquet.serde.ParquetHiveSerDe\x27\nSTORED AS PARQUET\nLOCATION \x27s3://data-lake/events/ext=parquet/\x27\n;")
    ∧ ("conn" : String) ≠ ""
    ∧ (to_spectrum "events" "analytics" "data-lake" 0 "x" "cola date" "pub" "" "parquet" "dt" "date" "2024-01-15" "conn" false "1970-01-01" 1
        = some { script := "CREATE EXTERNAL TABLE \"analytics\".\"events_parquet\" (\ncola date\n)\n\nROW FORMAT SERDE \x27org.apache.hadoop.hive.ql.io.parquet.serde.ParquetHiveSerDe\x27\nSTORED AS PARQUET\nLOCATION \x27s3://data-lake/events/ext=parquet/\x27\n;" ++ "CREATE VIEW \"pub\".\"events\" AS\nSELECT * FROM \"analytics\".\"events\"\nWITH NO SCHEMA BINDING;", executed := [""], queried := ["SELECT distinct(schemaname || tablename) as schema_table\nFROM SVV_EXTERNAL_COLUMNS\nWHERE schemaname || tablename = \x27analyticsevents\x27\n;"] })
    ∧ (({ script := "CREATE EXTERNAL TABLE \"analytics\".\"events_parquet\" (\ncola date\n)\n\nROW FORMAT SERDE \x27org.apache.hadoop.hive.ql.io.parquet.serde.ParquetHiveSerDe\x27\nSTORED AS PARQUET\nLOCATION \x27s3://data-lake/events/ext=parquet/\x27\n;" ++ "CREATE VIEW \"pub\".\"events\" AS\nSELECT * FROM \"analytics\".\"events\"\nWITH NO SCHEMA BINDING;", executed := [""], queried := ["SELECT distinct(schemaname || tablename) as schema_table\nFROM SVV_EXTERNAL_COLUMNS\nWHERE schemaname || tablename = \x27analyticsevents\x27\n;"] } : SpectrumResult).executed
      = (if (1:Nat) = 0 then [({ script := "CREATE EXTERNAL TABLE \"analytics\".\"events_parquet\" (\ncola date\n)\n\nROW FORMAT SERDE \x27org.apache.hadoop.hive.ql.io.parquet.serde.ParquetHiveSerDe\x27\nSTORED AS PARQUET\nLOCATION \x27s3://data-lake/events/ext=parquet/\x27\n;" ++ "CREATE VIEW \"pub\".\"events\" AS\nSELECT * FROM \"analytics\".\"events\"\nWITH NO SCHEMA BINDING;", executed := [""], queried := ["SELECT distinct(schemaname || tablename) as schema_table\nFROM SVV_EXTERNAL_COLUMNS\nWHERE schemaname || tablename = \x27analyticsevents\x27\n;"] } : SpectrumResult).script] else []) ++ [""]
    ∧ ({ script := "CREATE EXTERNAL TABLE \"analytics\".\"events_parquet\" (\ncola date\n)\n\nROW FORMAT SERDE \x27org.apache.hadoop.hive.ql.io.parquet.serde.ParquetHiveSerDe\x27\nSTORED AS PARQUET\nLOCATION \x27s3://data-lake/events/ext=parquet/\x27\n;" ++ "CREATE VIEW \"pub\".\"events\" AS\nSELECT * FROM \"analytics\".\"events\"\nWITH NO SCHEMA BINDING;", executed := [""], queried := ["SELECT distinct(schemaname || tablename) as schema_table\nFROM SVV_EXTERNAL_COLUMNS\nWHERE schemaname || tablename = \x27analyticsevents\x27\n;"] } : SpectrumResult).executed.getLast? = some "") :=
  ⟨by decide, by decide, by decide,
    C10_empty_partition_execute "events" "analytics" "data-lake" 0 "x" "cola date" "pub" ""
      "parquet" "dt" "date" "2024-01-15" "conn" "1970-01-01" 1
      "CREATE EXTERNAL TABLE \"analytics\".\"events_parquet\" (\ncola date\n)\n\nROW FORMAT SERDE \x27org.apache.hadoop.hive.ql.io.parquet.serde.ParquetHiveSerDe\x27\nSTORED AS PARQUET\nLOCATION \x27s3://data-lake/events/ext=parquet/\x27\n;"
      { script := "CREATE EXTERNAL TABLE \"analytics\".\"events_parquet\" (\ncola date\n)\n\nROW FORMAT SERDE \x27org.apache.hadoop.hive.ql.io.parquet.serde.ParquetHiveSerDe\x27\nSTORED AS PARQUET\nLOCATION \x27s3://data-lake/events/ext=parquet/\x27\n;" ++ "CREATE VIEW \"pub\".\"events\" AS\nSELECT * FROM \"analytics\".\"events\"\nWITH NO SCHEMA BINDING;", executed := [""], queried := ["SELECT distinct(schemaname || tablename) as schema_table\nFROM SVV_EXTERNAL_COLUMNS\nWHERE schemaname || tablename = \x27analyticsevents\x27\n;"] }
      (by decide) (by decide) (by decide)⟩
